import Mathlib

/-!
Verification development for the condoor interactive session driver.

The definitions below are shallow embeddings of the Python sources:
`condoor/controllers/fsm.py` (the FSM engine), `condoor/platforms/generic.py`
(`wait_for_prompt`, `send`, `_execute_command`, `connect`, `run_fsm`),
`condoor/actions.py`, `condoor/controllers/protocols/ssh.py`,
`condoor/controllers/protocols/base.py` (`levenshtein_distance`,
`detect_prompt`) and `condoor/__init__.py` (`_get_driver_name`,
`_update_device_info`, `device_description_record`).
-/

namespace Condoor

/-- The exception taxonomy of `condoor/exceptions.py` plus the `pexpect`
sentinels and the builtin Python exceptions the code can raise.  Each typed
condoor error carries its `message` and `host` constructor arguments. -/
inductive PyExc where
  | generalError (msg host : String)
  | invalidHopInfoError (msg host : String)
  | connectionError (msg host : String)
  | connectionAuthenticationError (msg host : String)
  | connectionTimeoutError (msg host : String)
  | commandError (msg host : String)
  | commandSyntaxError (msg host : String)
  | commandTimeoutError (msg host : String)
  | pexpectEOF
  | pexpectTIMEOUT
  | attributeError (attr : String)
  | typeError (msg : String)
  | otherError (msg : String)
deriving DecidableEq, Repr

/-- `isinstance(e, ConnectionError)`: `ConnectionAuthenticationError` and
`ConnectionTimeoutError` are subclasses of `ConnectionError`. -/
def PyExc.isConnectionError : PyExc → Bool
  | .connectionError _ _ => true
  | .connectionAuthenticationError _ _ => true
  | .connectionTimeoutError _ _ => true
  | _ => false

/-- `isinstance(e, CommandSyntaxError)`. -/
def PyExc.isCommandSyntaxError : PyExc → Bool
  | .commandSyntaxError _ _ => true
  | _ => false

/-- `isinstance(e, (CommandTimeoutError, pexpect.TIMEOUT))`. -/
def PyExc.isCommandTimeoutOrTimeout : PyExc → Bool
  | .commandTimeoutError _ _ => true
  | .pexpectTIMEOUT => true
  | _ => false

/-- A stand-in message for `str(err)` in the catch-all branch of
`_execute_command`. -/
def PyExc.excMessage : PyExc → String
  | .generalError m _ => m
  | .invalidHopInfoError m _ => m
  | .connectionError m _ => m
  | .connectionAuthenticationError m _ => m
  | .connectionTimeoutError m _ => m
  | .commandError m _ => m
  | .commandSyntaxError m _ => m
  | .commandTimeoutError m _ => m
  | .pexpectEOF => "EOF"
  | .pexpectTIMEOUT => "TIMEOUT"
  | .attributeError a => "FSM.Context instance has no attribute " ++ a
  | .typeError m => m
  | .otherError m => m

namespace FSM

/-- `FSM.Context` from `condoor/controllers/fsm.py`: the mutable context of one
FSM run.  Its attributes are exactly `fsm_name`, `ctrl`, `event_index`,
`event`, `state`, `finished`, `msg` (plus `pattern`, assigned during `run`);
in particular it has *no* `detected_prompts` attribute. -/
structure Ctx where
  state : Int
  finished : Bool
  msg : String
  event : Nat
deriving DecidableEq, Repr

/-- The initial context of `FSM.run` (`state = 0`, `finished = False`,
`msg = ""`). -/
def Ctx.init : Ctx := ⟨0, false, "", 0⟩

/-- Outcome of executing a callable action on the world `W` (the controller
and platform state the action mutates): either a normal return carrying the
boolean the FSM inspects, or a raised exception. -/
inductive ActOutcome (W : Type) where
  | ret (w : W) (ctx : Ctx) (b : Bool)
  | exc (w : W) (e : PyExc)

/-- The action slot of a transition: `None`, a callable, an exception
instance, or any other (non-callable) object. -/
inductive Action (W : Type) where
  | noAction
  | call (f : W → Ctx → ActOutcome W)
  | exc (e : PyExc)
  | notCallable

/-- One transition tuple `(event, [list_of_states], next_state, action,
timeout)`. -/
structure Transition (ε W : Type) where
  event : ε
  states : List Int
  next : Int
  act : Action W
  timeout : Nat

/-- Python's `list.index` (as used in `FSM._compile`), returning the first
index of `e` in `events`, or `none` where Python raises `ValueError`. -/
def eventIndex {ε : Type} [DecidableEq ε] (events : List ε) (e : ε) : Option Nat :=
  match events with
  | [] => none
  | x :: xs => if x = e then some 0 else (eventIndex xs e).map (· + 1)

/-- One iteration of the `for transition in transitions` loop of
`FSM._compile`: skip a transition whose event is absent from `events`,
otherwise write its entry under every `(event_index, state)` key, shadowing
earlier writes. -/
def compileStep {ε W : Type} [DecidableEq ε] (events : List ε)
    (tbl : Nat → Int → Option (Int × Action W × Nat)) (t : Transition ε W) :
    Nat → Int → Option (Int × Action W × Nat) :=
  match eventIndex events t.event with
  | none => tbl
  | some i => fun e s =>
      if e = i ∧ s ∈ t.states then some (t.next, t.act, t.timeout) else tbl e s

/-- `FSM._compile`: build the transition dictionary keyed by
`(event_index, state)`.  Transitions whose event is absent from `events` are
skipped; a later transition overwrites an earlier one on the same key. -/
def compile {ε W : Type} [DecidableEq ε] (events : List ε)
    (ts : List (Transition ε W)) : Nat → Int → Option (Int × Action W × Nat) :=
  ts.foldl (compileStep events) (fun _ _ => none)

/-- What one `ctrl.expect` call yields: a matched event index, or a raised
`pexpect.EOF` (when EOF is not among the expected patterns). -/
inductive ExpectResult where
  | ev (i : Nat)
  | eofExc
deriving DecidableEq, Repr

/-- The result of `FSM.run`: the returned boolean, or a raised exception;
both carry the final world state. -/
inductive RunResult (W : Type) where
  | ok (b : Bool) (w : W)
  | raised (e : PyExc) (w : W)

/-- `if callable(action) ... elif isinstance(action, Exception) ... elif
action is None ... else raise Exception("FSM Action is not callable")`. -/
def execAction {W : Type} (act : Action W) (w : W) (ctx : Ctx) : ActOutcome W :=
  match act with
  | .noAction => .ret w ctx true
  | .call f => f w ctx
  | .exc e => .exc w e
  | .notCallable => .exc w (.otherError "FSM Action is not callable")

/-- The `except EOF:` clause wrapping the loop body: a raised `pexpect.EOF`
becomes `ConnectionError("Session closed unexpectedly")`; other exceptions
propagate. -/
def mapEOF (host : String) (e : PyExc) : PyExc :=
  if e = .pexpectEOF then .connectionError "Session closed unexpectedly" host else e

/-- The event acquisition of one `FSM.run` iteration: `init_pattern`, when
set, supplies the event without consuming the channel; otherwise `expect`
either matches event `i` or raises `pexpect.EOF` (`none`).  Returns the
event and the next channel position. -/
def acquireEvent (chan : Nat → ExpectResult) (k : Nat) (initEv : Option Nat) :
    Option (Nat × Nat) :=
  match initEv with
  | some i => some (i, k)
  | none =>
    match chan k with
    | .eofExc => none
    | .ev i => some (i, k + 1)

/-- The `while transition_counter < self.max_transitions + 1` loop of
`FSM.run`.  `fuel` is the number of loop iterations still permitted, `k`
indexes the channel stream `chan` (the successive `expect` results), `initEv`
models `init_pattern` (already resolved to its event index), and `timeout`
is the current per-expect timeout.  A `pexpect.EOF` raised by `expect` is
caught by the `except EOF:` clause and re-raised as
`ConnectionError("Session closed unexpectedly")`. -/
def runLoop {W : Type} (host : String)
    (tbl : Nat → Int → Option (Int × Action W × Nat))
    (chan : Nat → ExpectResult) :
    Nat → Nat → Option Nat → Nat → W → Ctx → RunResult W
  | 0, _, _, _, w, _ => .ok false w
  | fuel + 1, k, initEv, timeout, w, ctx =>
    match acquireEvent chan k initEv with
    | none => .raised (.connectionError "Session closed unexpectedly" host) w
    | some (i, k') =>
      let ctx1 := { ctx with event := i }
      match tbl i ctx1.state with
      | none =>
        -- "Unknown transition: ... continue": the event is swallowed.
        runLoop host tbl chan fuel k' none timeout w ctx1
      | some (ns, act, ntmo) =>
        match execAction act w ctx1 with
        | .exc w' e => .raised (mapEOF host e) w'
        | .ret w' ctx' b =>
          if b then
            let timeout' := if ntmo ≠ 0 then ntmo else timeout
            let ctx'' := { ctx' with state := ns }
            if ctx''.finished ∨ ns = -1 then .ok true w'
            else runLoop host tbl chan fuel k' none timeout' w' ctx''
          else .ok false w'

/-- The class attribute `FSM.max_transitions = 20`. -/
def maxTransitions : Nat := 20

/-- An FSM instance: `__init__(name, ctrl, events, transitions, init_pattern,
timeout)`.  `initEvent` is `init_pattern` resolved to its index in `events`. -/
structure Cfg (ε W : Type) where
  events : List ε
  transitions : List (Transition ε W)
  initEvent : Option Nat
  timeout : Nat

/-- `FSM.run`, driven by the stream `chan` of `expect` results. -/
def run {ε W : Type} [DecidableEq ε] (host : String) (cfg : Cfg ε W)
    (chan : Nat → ExpectResult) (w : W) : RunResult W :=
  runLoop host (compile cfg.events cfg.transitions) chan
    (maxTransitions + 1) 0 cfg.initEvent cfg.timeout w Ctx.init

end FSM

/-! ### String helpers shared by several embedded functions -/

/-- `output.replace('\r', '')` as used at the end of `Connection.send`. -/
def stripCR (s : String) : String :=
  ⟨s.data.filter (fun c => c ≠ '\r')⟩

/-- Python's substring test `pat in s` (for non-empty literal patterns). -/
def listHasSub [DecidableEq α] : List α → List α → Bool
  | s, pat =>
    match s with
    | [] => pat.isEmpty
    | _ :: rest => pat.isPrefixOf s || listHasSub rest pat

/-- `pat in s` on strings. -/
def hasSub (s pat : String) : Bool := listHasSub s.data pat.data

/-! ### The controller / platform world mutated by the actions

`CtrlSt` collects the attributes of the pexpect `Controller` and of the
platform driver that the actions of `wait_for_prompt` / `_wait_for_string`
read or write: `connected`, `last_hop`, `before`/`after`, the detected-prompt
table, `last_pattern`, and the platform driver's `mode` and `hostname`. -/
structure CtrlSt where
  connected : Bool
  lastHop : Nat
  before : String
  after : String
  detectedPrompts : List (Option String)
  mode : String
  hostname : String
  lastPattern : Option String
deriving DecidableEq, Repr

/-- `determine_config_mode` from `condoor/platforms/generic.py`. -/
def determine_config_mode (prompt : String) : String :=
  if hasSub prompt "config" then "config"
  else if hasSub prompt "admin" then "admin"
  else "global"

/-- `determine_hostname` from `condoor/platforms/generic.py`; the regex
search for the `hostname` group in the platform prompt pattern is abstracted
as `hostnameSearch`. -/
def determine_hostname (hostnameSearch : String → Option String)
    (prompt : String) (w : CtrlSt) : CtrlSt :=
  match hostnameSearch prompt with
  | some h => { w with hostname := h }
  | none => { w with hostname := "not-set" }

/-! ### The actions of `condoor/actions.py` used during command execution -/

/-- `a_send(text, ctx)`: write `text` to the channel and return `True`. -/
def a_send (_text : String) : CtrlSt → FSM.Ctx → FSM.ActOutcome CtrlSt :=
  fun w ctx => .ret w ctx true

/-- `a_connection_closed`: set `ctx.msg`, mark the controller disconnected,
and keep the FSM running (to detect the jumphost prompt). -/
def a_connection_closed : CtrlSt → FSM.Ctx → FSM.ActOutcome CtrlSt :=
  fun w ctx =>
    .ret { w with connected := false } { ctx with msg := "Device disconnected" } true

/-- `a_stays_connected` (press-return seen): the session stays alive but
needs authentication; `last_hop` becomes `len(hosts) - 1`.  `n` is
`len(ctx.ctrl.hosts)`. -/
def a_stays_connected (n : Nat) : CtrlSt → FSM.Ctx → FSM.ActOutcome CtrlSt :=
  fun w ctx =>
    .ret { w with connected := true, lastHop := n - 1, lastPattern := some "press_return" }
      ctx true

/-- `a_unexpected_prompt` from `condoor/actions.py`:

    prompt = ctx.ctrl.after
    ctx.msg = "Received the jump host prompt: '{}'".format(prompt)
    ctx.ctrl.last_hop = ctx.detected_prompts.index(prompt)
    ctx.ctrl.connected = False
    return False

`FSM.Context` has no `detected_prompts` attribute (the detected-prompt table
lives on `ctx.ctrl`), so the third line raises `AttributeError`; the
assignments to `last_hop` and `connected` and the `return False` are never
reached. -/
def a_unexpected_prompt : CtrlSt → FSM.Ctx → FSM.ActOutcome CtrlSt :=
  fun w ctx =>
    let prompt := w.after
    let _ctxMsg := { ctx with msg := "Received the jump host prompt: " ++ prompt }
    .exc w (.attributeError "detected_prompts")

/-- `a_expected_prompt`: record the detected target prompt (the
`detected_target_prompt` setter writes slot `-1` of the prompt table), let
the platform derive mode and hostname, and finish the FSM. -/
def a_expected_prompt (hostnameSearch : String → Option String) :
    CtrlSt → FSM.Ctx → FSM.ActOutcome CtrlSt :=
  fun w ctx =>
    let prompt := w.after
    let w := { w with
      detectedPrompts := w.detectedPrompts.set (w.detectedPrompts.length - 1) (some prompt),
      mode := determine_config_mode prompt }
    let w := determine_hostname hostnameSearch prompt w
    .ret w { ctx with finished := true } true

/-- `a_expected_string_received`: just finish the FSM. -/
def a_expected_string_received : CtrlSt → FSM.Ctx → FSM.ActOutcome CtrlSt :=
  fun w ctx => .ret w { ctx with finished := true } true

/-! ### `Connection.wait_for_prompt` (condoor/platforms/generic.py)

`n` is the number of non-target entries of `compiled_prompts`
(`len(hosts)`, slot `0` holding the compiled fake prompt). -/

/-- The event objects of the `WAIT-4-PROMPT` FSM, in list order:
syntax-error, connection-closed, target prompt, press-return, more, TIMEOUT,
EOF, buffer-overflow, then the earlier-hop prompts `compiled_prompts[:-1]`. -/
inductive WEv (n : Nat) where
  | syntaxError
  | connClosed
  | target
  | pressReturn
  | more
  | timeout
  | eofEv
  | bufferOverflow
  | hop (i : Fin n)
deriving DecidableEq, Repr

/-- The `events` list passed to the `WAIT-4-PROMPT` FSM. -/
def wfpEvents (n : Nat) : List (WEv n) :=
  [.syntaxError, .connClosed, .target, .pressReturn, .more, .timeout, .eofEv,
   .bufferOverflow] ++ (List.finRange n).map .hop

/-- The transition table of `wait_for_prompt`, in source order; the final
block appends one transition per earlier-hop prompt. -/
def wfpTransitions (n : Nat) (host : String) (hostnameSearch : String → Option String) :
    List (FSM.Transition (WEv n) CtrlSt) :=
  [ ⟨.syntaxError, [0], -1, .exc (.commandSyntaxError "Command unknown" host), 0⟩,
    ⟨.connClosed, [0], 1, .call a_connection_closed, 10⟩,
    ⟨.timeout, [0], -1, .exc (.commandTimeoutError "Timeout waiting for prompt" host), 0⟩,
    ⟨.eofEv, [0, 1], -1, .exc (.connectionError "Unexpected device disconnect" host), 0⟩,
    ⟨.more, [0], 0, .call (a_send " "), 10⟩,
    ⟨.target, [0, 1], -1, .call (a_expected_prompt hostnameSearch), 0⟩,
    ⟨.pressReturn, [0], -1, .call (a_stays_connected n), 0⟩,
    ⟨.bufferOverflow, [0], -1, .exc (.commandSyntaxError "Command too long" host), 0⟩ ]
  ++ (List.finRange n).map
       (fun i => ⟨.hop i, [0, 1], 0, .call a_unexpected_prompt, 0⟩)

/-- The `WAIT-4-PROMPT` FSM instance (`timeout` is the caller timeout). -/
def wfpCfg (n : Nat) (host : String) (hostnameSearch : String → Option String)
    (timeout : Nat) : FSM.Cfg (WEv n) CtrlSt :=
  { events := wfpEvents n, transitions := wfpTransitions n host hostnameSearch,
    initEvent := none, timeout := timeout }

/-- `Connection.wait_for_prompt`. -/
def wait_for_prompt (n : Nat) (host : String)
    (hostnameSearch : String → Option String) (timeout : Nat)
    (chan : Nat → FSM.ExpectResult) (w : CtrlSt) : FSM.RunResult CtrlSt :=
  FSM.run host (wfpCfg n host hostnameSearch timeout) chan w

/-- The event objects of the `WAIT-4-STR` FSM (`_wait_for_string`). -/
inductive WSEv (n : Nat) where
  | syntaxError
  | connClosed
  | pressReturn
  | more
  | timeout
  | eofEv
  | expectedString
  | hop (i : Fin n)
deriving DecidableEq, Repr

/-- The `events` list passed to the `WAIT-4-STR` FSM. -/
def wfsEvents (n : Nat) : List (WSEv n) :=
  [.syntaxError, .connClosed, .pressReturn, .more, .timeout, .eofEv,
   .expectedString] ++ (List.finRange n).map .hop

/-- The transition table of `_wait_for_string`, in source order. -/
def wfsTransitions (n : Nat) (host : String) :
    List (FSM.Transition (WSEv n) CtrlSt) :=
  [ ⟨.syntaxError, [0], -1, .exc (.commandSyntaxError "Command unknown" host), 0⟩,
    ⟨.connClosed, [0], 1, .call a_connection_closed, 10⟩,
    ⟨.timeout, [0], -1, .exc (.commandTimeoutError "Timeout waiting for string" host), 0⟩,
    ⟨.eofEv, [0, 1], -1, .exc (.connectionError "Unexpected device disconnect" host), 0⟩,
    ⟨.more, [0], 0, .call (a_send " "), 10⟩,
    ⟨.expectedString, [0], -1, .call a_expected_string_received, 0⟩,
    ⟨.pressReturn, [0], -1, .call (a_stays_connected n), 0⟩ ]
  ++ (List.finRange n).map
       (fun i => ⟨.hop i, [0, 1], 0, .call a_unexpected_prompt, 0⟩)

/-- `Connection._wait_for_string`. -/
def wait_for_string (n : Nat) (host : String) (timeout : Nat)
    (chan : Nat → FSM.ExpectResult) (w : CtrlSt) : FSM.RunResult CtrlSt :=
  FSM.run host
    { events := wfsEvents n, transitions := wfsTransitions n host,
      initEvent := none, timeout := timeout }
    chan w

/-! ### `Connection.send` and `Connection._execute_command` -/

/-- The platform driver state touched by `send` / `connect` / `run_fsm`. -/
structure DriverSt where
  connected : Bool
  pendingConnection : Bool
  hostname : String
  ctrl : CtrlSt
deriving DecidableEq, Repr

/-- `Connection.disconnect` (generic driver): tear down the session and clear
the flags. -/
def Connection.disconnect (st : DriverSt) : DriverSt :=
  { st with connected := false, pendingConnection := false }

/-- The `try/except` ladder of `Connection._execute_command` applied to the
outcome of the wait FSM: a `False` return and a raised `pexpect.EOF` both
become `ConnectionError("Unexpected session disconnect")`, a
`CommandSyntaxError` is re-raised, `CommandTimeoutError`/`pexpect.TIMEOUT`
become `CommandTimeoutError("Command timeout")`, a `ConnectionError` is
re-raised, and any other exception becomes a `ConnectionError` wrapping its
message.  Returns the final controller state and the raised error, if any. -/
def executeCommandOutcome (host : String) (r : FSM.RunResult CtrlSt) :
    CtrlSt × Option PyExc :=
  match r with
  | .ok true w => (w, none)
  | .ok false w => (w, some (.connectionError "Unexpected session disconnect" host))
  | .raised e w =>
    (w,
     some (if e.isCommandSyntaxError then e
           else if e.isCommandTimeoutOrTimeout then .commandTimeoutError "Command timeout" host
           else if e.isConnectionError then e
           else if e = .pexpectEOF then .connectionError "Unexpected session disconnect" host
           else .connectionError e.excMessage host))

/-- `Connection.send`: on a connected driver run the command wait (whose
outcome is `r`), then either return `ctrl.before` with `'\r'` stripped, or
propagate the typed error — calling `disconnect` first when the error is a
`ConnectionError`.  On a driver that is not connected, raise
`ConnectionError("Device not connected")`. -/
def Connection.send (st : DriverSt) (r : FSM.RunResult CtrlSt) :
    DriverSt × Except PyExc String :=
  if st.connected then
    let (w, e?) := executeCommandOutcome st.hostname r
    match e? with
    | none => ({ st with ctrl := w }, .ok (stripCR w.before))
    | some e =>
      if e.isConnectionError then
        (Connection.disconnect { st with ctrl := w }, .error e)
      else ({ st with ctrl := w }, .error e)
  else (st, .error (.connectionError "Device not connected" st.hostname))

/-! ### The SSH protocol driver (condoor/controllers/protocols/ssh.py) -/

/-- The state mutated by the `SSH-CONNECT` actions: the session log of
spawned commands (`_spawn_session`), the protocol object's `last_pattern`
(as the saved event index), and the channel windows `before`/`after`. -/
structure SshSt where
  spawned : List String
  lastPattern : Option Nat
  before : String
  after : String
deriving DecidableEq, Repr

/-- `SSH._get_command(version)`: the exact ssh invocation string. -/
def SSH.getCommand (username : Option String) (port : Nat) (hostname : String)
    (version : Nat) : String :=
  match username with
  | some u =>
    "ssh -o UserKnownHostsFile=/dev/null -o StrictHostKeyChecking=no -" ++
      toString version ++ " -p " ++ toString port ++ " " ++ u ++ "@" ++ hostname
  | none =>
    "ssh -o UserKnownHostsFile=/dev/null -o StrictHostKeyChecking=no -" ++
      toString version ++ " -p " ++ toString port ++ " " ++ hostname

/-- `Protocol.save_pattern`: remember the matched pattern. -/
def SSH.savePattern : SshSt → FSM.Ctx → FSM.ActOutcome SshSt :=
  fun w ctx => .ret { w with lastPattern := some ctx.event } ctx true

/-- `Protocol.unable_to_connect`: record `before+after` in `ctx.msg` and stop
the FSM with failure. -/
def SSH.unableToConnect : SshSt → FSM.Ctx → FSM.ActOutcome SshSt :=
  fun w ctx => .ret w { ctx with msg := w.before ++ w.after } false

/-- `SSH.send_yes`: answer the new-host-key dialog. -/
def SSH.sendYes : SshSt → FSM.Ctx → FSM.ActOutcome SshSt :=
  fun w ctx => .ret w ctx true

/-- `Protocol.send_new_line`. -/
def SSH.sendNewLine : SshSt → FSM.Ctx → FSM.ActOutcome SshSt :=
  fun w ctx => .ret w ctx true

/-- `SSH.fallback_to_sshv1`: respawn the session with the `-1` (SSH v1)
command and continue. -/
def SSH.fallbackToSshv1 (username : Option String) (port : Nat) (hostname : String) :
    SshSt → FSM.Ctx → FSM.ActOutcome SshSt :=
  fun w ctx =>
    .ret { w with spawned := w.spawned ++ [SSH.getCommand username port hostname 1] }
      ctx true

/-- The event objects of the `SSH-CONNECT` FSM, in list order. -/
inductive SshEv where
  | passwordPrompt
  | prompt
  | unableToConnect
  | resetByPeer
  | newSshKey
  | knownHosts
  | hostKeyFailed
  | modulusTooSmall
  | protocolDiffer
  | timeout
deriving DecidableEq, Repr

/-- The `events` list of `SSH.connect`. -/
def sshEvents : List SshEv :=
  [.passwordPrompt, .prompt, .unableToConnect, .resetByPeer, .newSshKey,
   .knownHosts, .hostKeyFailed, .modulusTooSmall, .protocolDiffer, .timeout]

/-- The transition table of `SSH.connect`, in source order. -/
def sshTransitions (username : Option String) (port : Nat) (hostname : String) :
    List (FSM.Transition SshEv SshSt) :=
  [ ⟨.passwordPrompt, [0, 1, 4], -1, .call SSH.savePattern, 0⟩,
    ⟨.prompt, [0], -1, .call SSH.savePattern, 0⟩,
    ⟨.unableToConnect, [0], -1, .call SSH.unableToConnect, 0⟩,
    ⟨.resetByPeer, [0], -1, .call SSH.unableToConnect, 0⟩,
    ⟨.newSshKey, [0], 1, .call SSH.sendYes, 10⟩,
    ⟨.knownHosts, [1], 0, .noAction, 0⟩,
    ⟨.hostKeyFailed, [0], -1, .exc (.connectionError "Host key failed" hostname), 0⟩,
    ⟨.modulusTooSmall, [0], 0, .call (SSH.fallbackToSshv1 username port hostname), 0⟩,
    ⟨.protocolDiffer, [0], 4, .call (SSH.fallbackToSshv1 username port hostname), 0⟩,
    ⟨.protocolDiffer, [4], -1, .exc (.connectionError "Protocol version differs" hostname), 0⟩,
    ⟨.timeout, [0], 5, .call SSH.sendNewLine, 10⟩,
    ⟨.timeout, [5], -1, .exc (.connectionTimeoutError "Connection timeout" hostname), 0⟩ ]

/-- `SSH.connect`: run the `SSH-CONNECT` FSM (timeout 30). -/
def SSH.connect (username : Option String) (port : Nat) (hostname : String)
    (chan : Nat → FSM.ExpectResult) (w : SshSt) : FSM.RunResult SshSt :=
  FSM.run hostname
    { events := sshEvents, transitions := sshTransitions username port hostname,
      initEvent := none, timeout := 30 }
    chan w

/-! ### Driver selection and OS-type discovery (condoor/__init__.py) -/

/-- `Connection._get_driver_name`: map the detected `os_type` to the platform
driver name, with `'generic'` as the fallback (also for `None`). -/
def getDriverName (osType : Option String) : String :=
  if osType = some "XR" then "XR"
  else if osType = some "eXR" then "XR64"
  else if osType = some "IOS" ∨ osType = some "XE" then "IOS"
  else if osType = some "NX-OS" then "NX-OS"
  else if osType = some "Calvados" then "Calvados"
  else "generic"

/-- `re.search("(XR|XE|NX-OS)", text)`: scan left to right, trying the
alternatives in order at each position, and return the first match. -/
def searchOsToken : List Char → Option String
  | [] => none
  | c :: rest =>
    if ("XR".data).isPrefixOf (c :: rest) then some "XR"
    else if ("XE".data).isPrefixOf (c :: rest) then some "XE"
    else if ("NX-OS".data).isPrefixOf (c :: rest) then some "NX-OS"
    else searchOsToken rest

/-- The `os_type` computation of `Connection._update_device_info`: the first
`XR`/`XE`/`NX-OS` token found (else `IOS`); an `XR` result is refined to
`eXR` when `"Build Information"` occurs and further overridden to
`"Calvados"` when `"XR Admin Software"` occurs. -/
def updateOsType (show_version : String) : String :=
  let base := match searchOsToken show_version.data with
              | some t => t
              | none => "IOS"
  if base = "XR" then
    let t1 := if hasSub show_version "Build Information" then "eXR" else "XR"
    if hasSub show_version "XR Admin Software" then "Calvados" else t1
  else base

/-- The driver name selected by `Connection.discovery` for a probe output:
`_update_device_info` stores `os_type`, then `_get_driver_name` maps it. -/
def discoveryDriverName (show_version : String) : String :=
  getDriverName (some (updateOsType show_version))

/-! ### The device description record round trip (condoor/__init__.py) -/

/-- The chassis UDI record (`parse_inventory`). -/
structure Udi where
  name : String
  description : String
  pid : String
  vid : String
  sn : String
deriving DecidableEq, Repr

/-- The facade state whose fields feed `device_description_record`:
`_hostname`, `_prompt`, `_family`, `_platform`, `_os_type`, `_os_version`,
`_is_console`, `_last_driver_index`, and the active driver's `udi` and
`detected_prompts`. -/
structure FacadeSt where
  hostname : String
  prompt : Option String
  family : String
  platformField : String
  osType : Option String
  osVersion : Option String
  isConsole : Bool
  lastDriverIndex : Nat
  udi : Udi
  detectedPrompts : List (Option String)
deriving DecidableEq, Repr

/-- `[A-Z]` -/
def isUpperAZ (c : Char) : Bool := 'A' ≤ c ∧ c ≤ 'Z'

/-- `[0-9]` -/
def isDigit09 (c : Char) : Bool := '0' ≤ c ∧ c ≤ '9'

/-- `[-| ]` -/
def isPidSep (c : Char) : Bool := c = '-' ∨ c = '|' ∨ c = ' '

/-- Match exactly `k` characters satisfying `p`, returning them and the rest. -/
def takeExact (p : Char → Bool) : Nat → List Char → Option (List Char × List Char)
  | 0, rest => some ([], rest)
  | _ + 1, [] => none
  | k + 1, c :: rest =>
    if p c then (takeExact p k rest).map (fun t => (c :: t.1, t.2)) else none

/-- `[0-9]{3,4}` (greedy: four digits preferred). -/
def tryDigits (cs : List Char) : Option (List Char) :=
  ((takeExact isDigit09 4 cs).map Prod.fst).orElse
    (fun _ => (takeExact isDigit09 3 cs).map Prod.fst)

/-- `[-| ]?[0-9]{3,4}` (greedy: the separator is consumed if the digits then
match, with backtracking to the empty separator). -/
def trySepDigits (cs : List Char) : Option (List Char) :=
  match cs with
  | [] => none
  | c :: rest =>
    if isPidSep c then
      match tryDigits rest with
      | some d => some (c :: d)
      | none => tryDigits cs
    else tryDigits cs

/-- `[A-Z]{k}[-| ]?[0-9]{3,4}` at the head of `cs`. -/
def tryPlatLen (k : Nat) (cs : List Char) : Option (List Char) :=
  match takeExact isUpperAZ k cs with
  | none => none
  | some (ls, rest) => (trySepDigits rest).map (fun d => ls ++ d)

/-- The regex `([A-Z]{1,3}[-| ]?[0-9]{3,4})` anchored at the head: the greedy
`{1,3}` tries three letters first, backtracking to two, then one. -/
def platMatchHere (cs : List Char) : Option (List Char) :=
  (tryPlatLen 3 cs).orElse (fun _ => (tryPlatLen 2 cs).orElse (fun _ => tryPlatLen 1 cs))

/-- `re.search(r"([A-Z]{1,3}[-| ]?[0-9]{3,4})", pid)`: the leftmost match. -/
def platSearch : List Char → Option String
  | [] => none
  | c :: rest =>
    match platMatchHere (c :: rest) with
    | some m => some ⟨m⟩
    | none => platSearch rest

/-- The `Connection.platform` property: the first `[A-Z]{1,3}[-| ]?[0-9]{3,4}`
match in `udi['pid']`, falling back to `_platform`. -/
def platformProp (st : FacadeSt) : String :=
  match platSearch st.udi.pid.data with
  | some m => m
  | none => st.platformField

/-- The persisted `DeviceDescriptionRecord` dictionary. -/
structure DDR where
  driverName : String
  family : String
  platform : String
  osType : Option String
  osVersion : Option String
  udi : Udi
  hostname : String
  console : Bool
  devicePrompt : Option String
  detectedPrompts : List (Option String)
  lastDriver : Nat
deriving DecidableEq, Repr

/-- The `device_description_record` property (getter): `driver_name` comes
from `_get_driver_name()`, `device_info` from the `family`/`platform`/
`os_type`/`os_version` properties, and the rest from the facade and driver
state. -/
def deviceDescriptionRecord (st : FacadeSt) : DDR :=
  { driverName := getDriverName st.osType,
    family := st.family,
    platform := platformProp st,
    osType := st.osType,
    osVersion := st.osVersion,
    udi := st.udi,
    hostname := st.hostname,
    console := st.isConsole,
    devicePrompt := st.prompt,
    detectedPrompts := st.detectedPrompts,
    lastDriver := st.lastDriverIndex }

/-- The `device_description_record` setter applied to a fresh `Connection`:
install every recorded field, re-initialize the driver for
`ddr['driver_name']` and hand it the recorded `udi` and `detected_prompts`
(the final `determine_hostname` call only touches the driver's own
`hostname` attribute, not the facade's `_hostname`). -/
def setDeviceDescriptionRecord (st : FacadeSt) (r : DDR) : FacadeSt :=
  { st with
    isConsole := r.console,
    lastDriverIndex := r.lastDriver,
    hostname := r.hostname,
    prompt := r.devicePrompt,
    family := r.family,
    platformField := r.platform,
    osType := r.osType,
    osVersion := r.osVersion,
    udi := r.udi,
    detectedPrompts := r.detectedPrompts }

/-! ### Python call binding (for `Connection.connect` and `Connection.run_fsm`)

`Controller.__init__` and `FSM.__init__` are called with argument lists that
do not fit their signatures; the binding rules of Python calls decide what
happens.  A parameter is a name plus whether it has a default. -/

structure PyParam where
  name : String
  hasDefault : Bool
deriving DecidableEq, Repr

/-- Bind a call with `npos` positional arguments and the keyword arguments
`kwargs` against `params` (the signature without `self`): report a
`TypeError` for an unknown keyword, a keyword already bound positionally, or
a required parameter left unfilled. -/
def bindArgs (params : List PyParam) (npos : Nat) (kwargs : List String) :
    Except String Unit :=
  if params.length < npos then .error "too many positional arguments"
  else
    match kwargs.find? (fun k => !params.any (fun p => p.name == k)) with
    | some k => .error ("got an unexpected keyword argument " ++ k)
    | none =>
      match kwargs.find? (fun k => ((params.take npos).map PyParam.name).contains k) with
      | some k => .error ("got multiple values for argument " ++ k)
      | none =>
        match (params.drop npos).find? (fun p => !p.hasDefault && !kwargs.contains p.name) with
        | some p => .error ("missing required argument: " ++ p.name)
        | none => .ok ()

/-- The signature of `Controller.__init__` (condoor/controllers/
pexpect_ctrl.py): `(self, platform, hostname, hosts, account_manager=None,
max_attempts=1, logfile=None)`. -/
def controllerInitParams : List PyParam :=
  [⟨"platform", false⟩, ⟨"hostname", false⟩, ⟨"hosts", false⟩,
   ⟨"account_manager", true⟩, ⟨"max_attempts", true⟩, ⟨"logfile", true⟩]

/-- The signature of `FSM.__init__` (condoor/controllers/fsm.py):
`(self, name, ctrl, events, transitions, init_pattern=None, timeout=300)`. -/
def fsmInitParams : List PyParam :=
  [⟨"name", false⟩, ⟨"ctrl", false⟩, ⟨"events", false⟩, ⟨"transitions", false⟩,
   ⟨"init_pattern", true⟩, ⟨"timeout", true⟩]

/-- `Connection.connect` (generic driver): when not yet connected it first
evaluates `self.ctrl_class(self.hosts, self.account_manager,
logfile=logfile)` — two positional arguments plus the `logfile` keyword
against `Controller.__init__` — before any channel is spawned.  Only if that
binding succeeded would the code go on to `self.ctrl.connect()` (abstracted
as `ctrlConnect`) and either finish the session setup or raise
`ConnectionError("Connection failed")`.  When already connected the
constructor call is skipped and the method returns `self.connected`. -/
def Connection.connect (st : DriverSt) (ctrlConnect : Bool) : Except PyExc Bool :=
  if st.connected then .ok true
  else
    match bindArgs controllerInitParams 2 ["logfile"] with
    | .error m => .error (.typeError m)
    | .ok _ =>
      if ctrlConnect then .ok true
      else .error (.connectionError "Connection failed" st.hostname)

/-- `Connection.run_fsm` (generic driver): `_send_command(command)` runs
first (the command is typed to the device), then
`FSM(name, self.ctrl, events, transitions, timeout=timeout,
max_transitions=max_transitions)` is evaluated — four positional arguments
plus the keywords `timeout` and `max_transitions` against `FSM.__init__`.
Only if that binding succeeded would `fsm.run()` produce the boolean
`fsmResult`.  Returns the list of commands sent alongside the outcome. -/
def Connection.run_fsm (_st : DriverSt) (command : String) (fsmResult : Bool) :
    List String × Except PyExc Bool :=
  let sent := [command]
  match bindArgs fsmInitParams 4 ["timeout", "max_transitions"] with
  | .error m => (sent, .error (.typeError m))
  | .ok _ => (sent, .ok fsmResult)

/-! ### `Protocol.levenshtein_distance` and `Protocol.detect_prompt`
(condoor/controllers/protocols/base.py) -/

/-- The textbook Levenshtein recursion, used as the bridge between the DP of
`levenshtein_distance` and the minimum-edit characterization below. -/
def lev [DecidableEq α] : List α → List α → Nat
  | [], ys => ys.length
  | xs, [] => xs.length
  | x :: xs, y :: ys =>
    min (lev xs (y :: ys) + 1)
      (min (lev (x :: xs) ys + 1) (lev xs ys + (if x = y then 0 else 1)))

/-- The inner `for j in range(1, n+1)` loop of `levenshtein_distance`: given
the previous row (starting at entry `j-1`), the last computed entry of the
current row, and the remaining characters of `a`, produce entries `j..n` of
the current row via
`current[j] = min(previous[j]+1, current[j-1]+1, previous[j-1]+cost)`. -/
def nextRow [DecidableEq α] (bi : α) : List α → List Nat → Nat → List Nat
  | aj :: arest, p0 :: p1 :: prest, last =>
    let v := min (p1 + 1) (min (last + 1) (p0 + (if aj = bi then 0 else 1)))
    v :: nextRow bi arest (p1 :: prest) v
  | _, _, _ => []

/-- The outer `for i in range(1, m+1)` loop of `levenshtein_distance`:
each character of `b` replaces the current row by `[i] + inner-loop row`. -/
def dpLoop [DecidableEq α] (a : List α) : List α → List Nat → Nat → List Nat
  | [], cur, _ => cur
  | bi :: brest, cur, i => dpLoop a brest (i :: nextRow bi a cur i) (i + 1)

/-- `Protocol.levenshtein_distance(a, b)`: swap so that `a` is the shorter
string (`if n > m: a, b = b, a`), run the row DP with
`current = range(n+1)`, and return `current[n]` (the last entry of the final
row). -/
def levenshtein_distance [DecidableEq α] (a0 b0 : List α) : Nat :=
  if b0.length < a0.length then
    (dpLoop b0 a0 (List.range (b0.length + 1)) 1).getLastD 0
  else
    (dpLoop a0 b0 (List.range (a0.length + 1)) 1).getLastD 0

/-- `levenshtein_distance` on Python strings. -/
def levenshteinStr (a b : String) : Nat := levenshtein_distance a.data b.data

/-- The specification of the DP rows: for the processed (reversed) prefix
`raPre` of `a`, the row lists `lev` of every extension of `raPre` by a
prefix of `aSuf` against the (reversed) processed prefix `rb` of `b`. -/
def rowOf [DecidableEq α] (raPre : List α) (aSuf : List α) (rb : List α) : List Nat :=
  lev raPre rb ::
    (match aSuf with
     | [] => []
     | x :: rest => rowOf (x :: raPre) rest rb)

/-- Python's `str.splitlines(True)` restricted to the line boundaries that
occur in device reads: split on `\n`, `\r` and `\r\n`, keeping the line
terminators. -/
def splitlinesKeep : List Char → List Char → List (List Char)
  | acc, [] => if acc.isEmpty then [] else [acc.reverse]
  | acc, '\r' :: '\n' :: rest => (acc.reverse ++ ['\r', '\n']) :: splitlinesKeep [] rest
  | acc, '\r' :: rest => (acc.reverse ++ ['\r']) :: splitlinesKeep [] rest
  | acc, '\n' :: rest => (acc.reverse ++ ['\n']) :: splitlinesKeep [] rest
  | acc, c :: rest => splitlinesKeep (c :: acc) rest

/-- `b.splitlines(True)[-1]` (defined for non-empty `b`; the empty case
is unreachable at the call site because an empty `b` is never accepted). -/
def lastLineKeep (s : String) : String :=
  ⟨(splitlinesKeep [] s.data).getLastD []⟩

/-- The `while attempt < max_attempts` loop of `Protocol.detect_prompt`.
`reads k m` abstracts the pair of `sendline(); try_read_prompt(m)` reads of
attempt `k` (1-based) performed with multiplier `m`.  Each iteration
multiplies the multiplier by `1.2`, skips when `len(a) == 0`, and accepts
`b.splitlines(True)[-1]` when `float(ld)/len_a < 0.3`. -/
def detectGo (reads : Nat → ℚ → String × String) :
    Nat → ℚ → Nat → Option (Nat × String)
  | _, _, 0 => none
  | attempt, m, fuel + 1 =>
    let ab := reads (attempt + 1) m
    let a := ab.1
    let b := ab.2
    let ld := levenshteinStr a b
    let m' := m * (6 / 5)
    if a.length = 0 then detectGo reads (attempt + 1) m' fuel
    else if (ld : ℚ) / (a.length : ℚ) < 3 / 10 then
      some (attempt + 1, lastLineKeep b)
    else detectGo reads (attempt + 1) m' fuel

/-- `Protocol.detect_prompt(sync_multiplier=4)`: up to `max_attempts = 10`
attempts, starting from multiplier `4` (the initial discarded
`sendline(); try_read_prompt` is absorbed into `reads`).  Returns the
accepting attempt number and the detected prompt, or `none`. -/
def detect_prompt (reads : Nat → ℚ → String × String) : Option (Nat × String) :=
  detectGo reads 0 4 10

/-! ### The specification of edit distance

`Step a b` holds when `b` is obtained from `a` by one single-character
insertion, deletion or substitution; `Chain a b n` when `n` such edits
transform `a` into `b`. -/

inductive Step [DecidableEq α] : List α → List α → Prop where
  | ins (pre post : List α) (y : α) : Step (pre ++ post) (pre ++ y :: post)
  | del (pre post : List α) (x : α) : Step (pre ++ x :: post) (pre ++ post)
  | sub (pre post : List α) (x y : α) : Step (pre ++ x :: post) (pre ++ y :: post)

inductive Chain [DecidableEq α] : List α → List α → Nat → Prop where
  | refl (xs : List α) : Chain xs xs 0
  | step {a c b : List α} {n : Nat} : Step a c → Chain c b n → Chain a b (n + 1)

/-- Left-to-right alignments: the auxiliary cost relation used to connect
the recursion `lev` with `Chain`. -/
inductive Aligns [DecidableEq α] : List α → List α → Nat → Prop where
  | nil : Aligns [] [] 0
  | ins {xs ys : List α} {n : Nat} (y : α) : Aligns xs ys n → Aligns xs (y :: ys) (n + 1)
  | del {xs ys : List α} {n : Nat} (x : α) : Aligns xs ys n → Aligns (x :: xs) ys (n + 1)
  | sub {xs ys : List α} {n : Nat} (x y : α) :
      Aligns xs ys n → Aligns (x :: xs) (y :: ys) (n + (if x = y then 0 else 1))

/-! ## Lemmas about the FSM engine -/

theorem runLoop_fuel_zero {W : Type} (host : String)
    (tbl : Nat → Int → Option (Int × FSM.Action W × Nat))
    (chan : Nat → FSM.ExpectResult) (k : Nat) (ie : Option Nat) (tmo : Nat)
    (w : W) (ctx : FSM.Ctx) :
    FSM.runLoop host tbl chan 0 k ie tmo w ctx = .ok false w := by
  simp [FSM.runLoop]

theorem runLoop_swallow {W : Type} (host : String)
    (tbl : Nat → Int → Option (Int × FSM.Action W × Nat))
    (chan : Nat → FSM.ExpectResult) (fuel k tmo : Nat) (w : W) (ctx : FSM.Ctx)
    (i : Nat) (hchan : chan k = .ev i) (htbl : tbl i ctx.state = none) :
    FSM.runLoop host tbl chan (fuel + 1) k none tmo w ctx
      = FSM.runLoop host tbl chan fuel (k + 1) none tmo w { ctx with event := i } := by
  rw [FSM.runLoop]
  simp [FSM.acquireEvent, hchan, htbl]

theorem runLoop_terminal {W : Type} (host : String)
    (tbl : Nat → Int → Option (Int × FSM.Action W × Nat))
    (chan : Nat → FSM.ExpectResult) (fuel k tmo : Nat) (w w' : W)
    (ctx ctx' : FSM.Ctx) (i : Nat) (ns : Int) (act : FSM.Action W) (ntmo : Nat)
    (hchan : chan k = .ev i)
    (htbl : tbl i ctx.state = some (ns, act, ntmo))
    (hact : FSM.execAction act w { ctx with event := i } = .ret w' ctx' true)
    (hfin : ctx'.finished = true ∨ ns = -1) :
    FSM.runLoop host tbl chan (fuel + 1) k none tmo w ctx = .ok true w' := by
  rw [FSM.runLoop]
  simp only [FSM.acquireEvent, hchan, htbl, hact]
  rcases hfin with h | h <;> simp [h]

theorem runLoop_raise {W : Type} (host : String)
    (tbl : Nat → Int → Option (Int × FSM.Action W × Nat))
    (chan : Nat → FSM.ExpectResult) (fuel k tmo : Nat) (w : W)
    (ctx : FSM.Ctx) (i : Nat) (ns : Int) (e : PyExc) (ntmo : Nat)
    (hchan : chan k = .ev i)
    (htbl : tbl i ctx.state = some (ns, .exc e, ntmo))
    (hne : e ≠ .pexpectEOF) :
    FSM.runLoop host tbl chan (fuel + 1) k none tmo w ctx = .raised e w := by
  rw [FSM.runLoop]
  simp [FSM.acquireEvent, hchan, htbl, FSM.execAction, FSM.mapEOF, hne]

theorem runLoop_all_swallowed {W : Type} (host : String)
    (tbl : Nat → Int → Option (Int × FSM.Action W × Nat))
    (chan : Nat → FSM.ExpectResult) (w : W)
    (h : ∀ j, ∃ i, chan j = .ev i ∧ ∀ s, tbl i s = none) :
    ∀ fuel k tmo ctx, FSM.runLoop host tbl chan fuel k none tmo w ctx = .ok false w := by
  intro fuel
  induction fuel with
  | zero => intro k tmo ctx; exact runLoop_fuel_zero host tbl chan k none tmo w ctx
  | succ fuel ih =>
    intro k tmo ctx
    obtain ⟨i, hc, ht⟩ := h k
    rw [runLoop_swallow host tbl chan fuel k tmo w ctx i hc (ht ctx.state)]
    exact ih (k + 1) tmo { ctx with event := i }

/-! ## C3: termination behaviour of `FSM.run` -/

/-- **C3.**  For every event list and transition table, `FSM.run` terminates:
it returns `True` as soon as the reached next state is `-1` or the context's
`finished` flag is set (conjunct 1); the transition counter bound is
`max_transitions = 20` by default, the loop returns `False` when its fuel
(`max_transitions + 1 - counter`) is exhausted, and a run all of whose
events miss the compiled transition map returns `False` (conjunct 2); and an
`expect` result whose `(event, state)` pair is absent from the compiled
transition map is swallowed — the loop continues with the state unchanged
(conjunct 3). -/
theorem fsm_run_termination {ε W : Type} [DecidableEq ε]
    (host : String) (cfg : FSM.Cfg ε W) (chan : Nat → FSM.ExpectResult)
    (w w' : W) (fuel k tmo : Nat) (ctx ctx' : FSM.Ctx) (i : Nat) (ns : Int)
    (act : FSM.Action W) (ntmo : Nat) :
    (chan k = .ev i →
     FSM.compile cfg.events cfg.transitions i ctx.state = some (ns, act, ntmo) →
     FSM.execAction act w { ctx with event := i } = .ret w' ctx' true →
     (ctx'.finished = true ∨ ns = -1) →
     FSM.runLoop host (FSM.compile cfg.events cfg.transitions) chan (fuel + 1) k none tmo w ctx
       = .ok true w')
    ∧ (FSM.maxTransitions = 20 ∧
       FSM.runLoop host (FSM.compile cfg.events cfg.transitions) chan 0 k none tmo w ctx
         = .ok false w ∧
       ((∀ j, ∃ i', chan j = .ev i' ∧
           ∀ s, FSM.compile cfg.events cfg.transitions i' s = none) →
        cfg.initEvent = none →
        FSM.run host cfg chan w = .ok false w))
    ∧ (chan k = .ev i →
       FSM.compile cfg.events cfg.transitions i ctx.state = none →
       FSM.runLoop host (FSM.compile cfg.events cfg.transitions) chan (fuel + 1) k none tmo w ctx
         = FSM.runLoop host (FSM.compile cfg.events cfg.transitions) chan fuel (k + 1) none tmo
             w { ctx with event := i }) := by
  refine ⟨?_, ⟨rfl, ?_, ?_⟩, ?_⟩
  · intro hchan htbl hact hfin
    exact runLoop_terminal host _ chan fuel k tmo w w' ctx ctx' i ns act ntmo
      hchan htbl hact hfin
  · exact runLoop_fuel_zero host _ chan k none tmo w ctx
  · intro hall hinit
    unfold FSM.run
    rw [hinit]
    exact runLoop_all_swallowed host _ chan w hall (FSM.maxTransitions + 1) 0 cfg.timeout
      FSM.Ctx.init
  · intro hchan htbl
    exact runLoop_swallow host _ chan fuel k tmo w ctx i hchan htbl

/-- Witness for C3: a concrete two-event FSM.  Event `0` in state `0` has a
transition to `-1` with no action, so the run succeeds at once; event `1`
has no transition, so a channel that always yields event `1` is swallowed
21 times and the run returns `False`. -/
theorem fsm_run_termination_witness :
    (FSM.runLoop "h"
        (FSM.compile [0, 1]
          [⟨0, [0], -1, (.noAction : FSM.Action Nat), 0⟩])
        (fun _ => .ev 0) (1 + 1) 0 none 5 7 FSM.Ctx.init
      = .ok true 7)
    ∧ FSM.run "h"
        ({ events := [0, 1], transitions := [⟨0, [0], -1, (.noAction : FSM.Action Nat), 0⟩],
           initEvent := none, timeout := 5 } : FSM.Cfg Nat Nat)
        (fun _ => .ev 1) 7 = .ok false 7
    ∧ FSM.runLoop "h"
        (FSM.compile [0, 1]
          [⟨0, [0], -1, (.noAction : FSM.Action Nat), 0⟩])
        (fun _ => .ev 1) (1 + 1) 0 none 5 7 FSM.Ctx.init
      = FSM.runLoop "h"
          (FSM.compile [0, 1]
            [⟨0, [0], -1, (.noAction : FSM.Action Nat), 0⟩])
          (fun _ => .ev 1) 1 1 none 5 7 { FSM.Ctx.init with event := 1 } := by
  have cfg : FSM.Cfg Nat Nat :=
    { events := [0, 1], transitions := [⟨0, [0], -1, .noAction, 0⟩],
      initEvent := none, timeout := 5 }
  refine ⟨?_, ?_, ?_⟩
  · exact (fsm_run_termination "h"
      { events := [0, 1], transitions := [⟨0, [0], -1, .noAction, 0⟩],
        initEvent := none, timeout := 5 }
      (fun _ => .ev 0) 7 7 1 0 5 FSM.Ctx.init { FSM.Ctx.init with event := 0 } 0 (-1)
      .noAction 0).1 rfl rfl rfl (Or.inr rfl)
  · exact ((fsm_run_termination "h"
      { events := [0, 1], transitions := [⟨0, [0], -1, .noAction, 0⟩],
        initEvent := none, timeout := 5 }
      (fun _ => .ev 1) 7 7 1 0 5 FSM.Ctx.init FSM.Ctx.init 1 (-1)
      .noAction 0).2.1.2.2
      (fun _ => ⟨1, rfl, fun s => by
        cases s <;> rfl⟩) rfl)
  · exact (fsm_run_termination "h"
      { events := [0, 1], transitions := [⟨0, [0], -1, .noAction, 0⟩],
        initEvent := none, timeout := 5 }
      (fun _ => .ev 1) 7 7 1 0 5 FSM.Ctx.init FSM.Ctx.init 1 (-1)
      .noAction 0).2.2 rfl rfl

/-! ## Lemmas about the compiled `wait_for_prompt` transition table -/

theorem compileStep_skip {ε W : Type} [DecidableEq ε] (events : List ε)
    (tbl : Nat → Int → Option (Int × FSM.Action W × Nat)) (t : FSM.Transition ε W)
    (e : Nat) (s : Int)
    (h : ∀ j, FSM.eventIndex events t.event = some j → e ≠ j) :
    FSM.compileStep events tbl t e s = tbl e s := by
  unfold FSM.compileStep
  cases hidx : FSM.eventIndex events t.event with
  | none => rfl
  | some j => simp [h j hidx]

theorem foldl_compileStep_skip {ε W : Type} [DecidableEq ε] (events : List ε)
    (l : List (FSM.Transition ε W)) :
    ∀ (tbl : Nat → Int → Option (Int × FSM.Action W × Nat)) (e : Nat) (s : Int),
      (∀ t ∈ l, ∀ j, FSM.eventIndex events t.event = some j → e ≠ j) →
      (l.foldl (FSM.compileStep events) tbl) e s = tbl e s := by
  induction l with
  | nil => intro tbl e s _; rfl
  | cons t rest ih =>
    intro tbl e s h
    rw [List.foldl_cons, ih _ e s (fun t' ht' => h t' (List.mem_cons_of_mem t ht'))]
    exact compileStep_skip events tbl t e s (h t (List.mem_cons_self t rest))

theorem wfp_eventIndex_hop_ge (n : Nat) (i : Fin n) (j : Nat)
    (h : FSM.eventIndex (wfpEvents n) (WEv.hop i) = some j) : 8 ≤ j := by
  simp only [wfpEvents, List.cons_append, List.nil_append, FSM.eventIndex,
    reduceCtorEq, if_false, Option.map_eq_some'] at h
  obtain ⟨a1, ⟨a2, ⟨a3, ⟨a4, ⟨a5, ⟨a6, ⟨a7, ⟨a8, -, rfl⟩, rfl⟩, rfl⟩, rfl⟩, rfl⟩, rfl⟩, rfl⟩, rfl⟩ := h
  omega

/-- Lookups below event index 8 in the `wait_for_prompt` table fall through
the appended earlier-hop transitions to the eight base transitions. -/
theorem wfp_tbl_base (n : Nat) (host : String) (hs : String → Option String)
    (e : Nat) (s : Int) (he : e < 8) :
    FSM.compile (wfpEvents n) (wfpTransitions n host hs) e s
      = FSM.compile (wfpEvents n)
          [ ⟨.syntaxError, [0], -1, .exc (.commandSyntaxError "Command unknown" host), 0⟩,
            ⟨.connClosed, [0], 1, .call a_connection_closed, 10⟩,
            ⟨.timeout, [0], -1, .exc (.commandTimeoutError "Timeout waiting for prompt" host), 0⟩,
            ⟨.eofEv, [0, 1], -1, .exc (.connectionError "Unexpected device disconnect" host), 0⟩,
            ⟨.more, [0], 0, .call (a_send " "), 10⟩,
            ⟨.target, [0, 1], -1, .call (a_expected_prompt hs), 0⟩,
            ⟨.pressReturn, [0], -1, .call (a_stays_connected n), 0⟩,
            ⟨.bufferOverflow, [0], -1, .exc (.commandSyntaxError "Command too long" host), 0⟩ ]
          e s := by
  unfold wfpTransitions FSM.compile
  rw [List.foldl_append]
  apply foldl_compileStep_skip
  intro t ht j hj
  simp only [List.mem_map] at ht
  obtain ⟨i, _, rfl⟩ := ht
  have := wfp_eventIndex_hop_ge n i j hj
  omega

theorem wfp_tbl_syntax (n : Nat) (host : String) (hs : String → Option String) :
    FSM.compile (wfpEvents n) (wfpTransitions n host hs) 0 0
      = some (-1, .exc (.commandSyntaxError "Command unknown" host), 0) := by
  rw [wfp_tbl_base n host hs 0 0 (by omega)]; rfl

theorem wfp_tbl_overflow (n : Nat) (host : String) (hs : String → Option String) :
    FSM.compile (wfpEvents n) (wfpTransitions n host hs) 7 0
      = some (-1, .exc (.commandSyntaxError "Command too long" host), 0) := by
  rw [wfp_tbl_base n host hs 7 0 (by omega)]; rfl

theorem wfp_tbl_timeout (n : Nat) (host : String) (hs : String → Option String) :
    FSM.compile (wfpEvents n) (wfpTransitions n host hs) 5 0
      = some (-1, .exc (.commandTimeoutError "Timeout waiting for prompt" host), 0) := by
  rw [wfp_tbl_base n host hs 5 0 (by omega)]; rfl

theorem wfp_tbl_eof (n : Nat) (host : String) (hs : String → Option String) (s : Int)
    (h : s = 0 ∨ s = 1) :
    FSM.compile (wfpEvents n) (wfpTransitions n host hs) 6 s
      = some (-1, .exc (.connectionError "Unexpected device disconnect" host), 0) := by
  rcases h with rfl | rfl
  · rw [wfp_tbl_base n host hs 6 0 (by omega)]; rfl
  · rw [wfp_tbl_base n host hs 6 1 (by omega)]; rfl

/-! ## C1: the error transitions of `wait_for_prompt` -/

/-- **C1.**  `wait_for_prompt` maps device events to typed errors exactly as
stated: events `0`, `7`, `5`, `6` of its event list are the syntax-error
pattern, the buffer-overflow pattern, `pexpect.TIMEOUT` and `pexpect.EOF`
(first conjunct); in state `0` a syntax-error match terminates the run with
`CommandSyntaxError("Command unknown")`, a buffer-overflow match with
`CommandSyntaxError("Command too long")`, a channel TIMEOUT with
`CommandTimeoutError`; and an EOF in state `0` or `1` terminates with
`ConnectionError("Unexpected device disconnect")` — both mid-run (the
`runLoop` conjuncts, for any reachable context in that state) and for a
`wait_for_prompt` call whose first event is the one in question. -/
theorem wait_for_prompt_typed_errors (n : Nat) (host : String)
    (hs : String → Option String) (chan : Nat → FSM.ExpectResult)
    (w : CtrlSt) (fuel k tmo : Nat) (ctx : FSM.Ctx) :
    (FSM.eventIndex (wfpEvents n) .syntaxError = some 0 ∧
     FSM.eventIndex (wfpEvents n) .bufferOverflow = some 7 ∧
     FSM.eventIndex (wfpEvents n) .timeout = some 5 ∧
     FSM.eventIndex (wfpEvents n) .eofEv = some 6)
    ∧ (ctx.state = 0 → chan k = .ev 0 →
       FSM.runLoop host (FSM.compile (wfpEvents n) (wfpTransitions n host hs)) chan
           (fuel + 1) k none tmo w ctx
         = .raised (.commandSyntaxError "Command unknown" host) w)
    ∧ (ctx.state = 0 → chan k = .ev 7 →
       FSM.runLoop host (FSM.compile (wfpEvents n) (wfpTransitions n host hs)) chan
           (fuel + 1) k none tmo w ctx
         = .raised (.commandSyntaxError "Command too long" host) w)
    ∧ (ctx.state = 0 → chan k = .ev 5 →
       FSM.runLoop host (FSM.compile (wfpEvents n) (wfpTransitions n host hs)) chan
           (fuel + 1) k none tmo w ctx
         = .raised (.commandTimeoutError "Timeout waiting for prompt" host) w)
    ∧ ((ctx.state = 0 ∨ ctx.state = 1) → chan k = .ev 6 →
       FSM.runLoop host (FSM.compile (wfpEvents n) (wfpTransitions n host hs)) chan
           (fuel + 1) k none tmo w ctx
         = .raised (.connectionError "Unexpected device disconnect" host) w)
    ∧ (chan 0 = .ev 0 →
       wait_for_prompt n host hs tmo chan w
         = .raised (.commandSyntaxError "Command unknown" host) w)
    ∧ (chan 0 = .ev 7 →
       wait_for_prompt n host hs tmo chan w
         = .raised (.commandSyntaxError "Command too long" host) w)
    ∧ (chan 0 = .ev 5 →
       wait_for_prompt n host hs tmo chan w
         = .raised (.commandTimeoutError "Timeout waiting for prompt" host) w)
    ∧ (chan 0 = .ev 6 →
       wait_for_prompt n host hs tmo chan w
         = .raised (.connectionError "Unexpected device disconnect" host) w) := by
  have hsyn : ∀ (fuel' k' tmo' : Nat) (ctx' : FSM.Ctx), ctx'.state = 0 → chan k' = .ev 0 →
      FSM.runLoop host (FSM.compile (wfpEvents n) (wfpTransitions n host hs)) chan
        (fuel' + 1) k' none tmo' w ctx'
        = .raised (.commandSyntaxError "Command unknown" host) w := by
    intro fuel' k' tmo' ctx' hst hchan
    refine runLoop_raise host _ chan fuel' k' tmo' w ctx' 0 (-1) _ 0 hchan ?_ (by simp)
    rw [hst, wfp_tbl_syntax n host hs]
  have hovf : ∀ (fuel' k' tmo' : Nat) (ctx' : FSM.Ctx), ctx'.state = 0 → chan k' = .ev 7 →
      FSM.runLoop host (FSM.compile (wfpEvents n) (wfpTransitions n host hs)) chan
        (fuel' + 1) k' none tmo' w ctx'
        = .raised (.commandSyntaxError "Command too long" host) w := by
    intro fuel' k' tmo' ctx' hst hchan
    refine runLoop_raise host _ chan fuel' k' tmo' w ctx' 7 (-1) _ 0 hchan ?_ (by simp)
    rw [hst, wfp_tbl_overflow n host hs]
  have htmo : ∀ (fuel' k' tmo' : Nat) (ctx' : FSM.Ctx), ctx'.state = 0 → chan k' = .ev 5 →
      FSM.runLoop host (FSM.compile (wfpEvents n) (wfpTransitions n host hs)) chan
        (fuel' + 1) k' none tmo' w ctx'
        = .raised (.commandTimeoutError "Timeout waiting for prompt" host) w := by
    intro fuel' k' tmo' ctx' hst hchan
    refine runLoop_raise host _ chan fuel' k' tmo' w ctx' 5 (-1) _ 0 hchan ?_ (by simp)
    rw [hst, wfp_tbl_timeout n host hs]
  have heof : ∀ (fuel' k' tmo' : Nat) (ctx' : FSM.Ctx), (ctx'.state = 0 ∨ ctx'.state = 1) →
      chan k' = .ev 6 →
      FSM.runLoop host (FSM.compile (wfpEvents n) (wfpTransitions n host hs)) chan
        (fuel' + 1) k' none tmo' w ctx'
        = .raised (.connectionError "Unexpected device disconnect" host) w := by
    intro fuel' k' tmo' ctx' hst hchan
    refine runLoop_raise host _ chan fuel' k' tmo' w ctx' 6 (-1) _ 0 hchan ?_ (by simp)
    exact wfp_tbl_eof n host hs ctx'.state hst
  refine ⟨⟨rfl, rfl, rfl, rfl⟩, hsyn fuel k tmo ctx, hovf fuel k tmo ctx,
    htmo fuel k tmo ctx, heof fuel k tmo ctx, ?_, ?_, ?_, ?_⟩
  · intro hchan
    exact hsyn FSM.maxTransitions 0 tmo FSM.Ctx.init rfl hchan
  · intro hchan
    exact hovf FSM.maxTransitions 0 tmo FSM.Ctx.init rfl hchan
  · intro hchan
    exact htmo FSM.maxTransitions 0 tmo FSM.Ctx.init rfl hchan
  · intro hchan
    exact heof FSM.maxTransitions 0 tmo FSM.Ctx.init (Or.inl rfl) hchan

/-- Witness for C1: a concrete one-hop connection; four channels whose first
event is, in turn, the syntax-error, buffer-overflow, TIMEOUT and EOF event
of `wait_for_prompt`, with the hypotheses discharged by `rfl`. -/
theorem wait_for_prompt_typed_errors_witness :
    (wait_for_prompt 1 "r" (fun _ => none) 60 (fun _ => .ev 0)
        ⟨true, 0, "", "", [], "", "", none⟩
      = .raised (.commandSyntaxError "Command unknown" "r")
          ⟨true, 0, "", "", [], "", "", none⟩)
    ∧ (wait_for_prompt 1 "r" (fun _ => none) 60 (fun _ => .ev 7)
        ⟨true, 0, "", "", [], "", "", none⟩
      = .raised (.commandSyntaxError "Command too long" "r")
          ⟨true, 0, "", "", [], "", "", none⟩)
    ∧ (wait_for_prompt 1 "r" (fun _ => none) 60 (fun _ => .ev 5)
        ⟨true, 0, "", "", [], "", "", none⟩
      = .raised (.commandTimeoutError "Timeout waiting for prompt" "r")
          ⟨true, 0, "", "", [], "", "", none⟩)
    ∧ (wait_for_prompt 1 "r" (fun _ => none) 60 (fun _ => .ev 6)
        ⟨true, 0, "", "", [], "", "", none⟩
      = .raised (.connectionError "Unexpected device disconnect" "r")
          ⟨true, 0, "", "", [], "", "", none⟩) :=
  ⟨(wait_for_prompt_typed_errors 1 "r" (fun _ => none) (fun _ => .ev 0)
      ⟨true, 0, "", "", [], "", "", none⟩ 0 0 60 FSM.Ctx.init).2.2.2.2.2.1 rfl,
   (wait_for_prompt_typed_errors 1 "r" (fun _ => none) (fun _ => .ev 7)
      ⟨true, 0, "", "", [], "", "", none⟩ 0 0 60 FSM.Ctx.init).2.2.2.2.2.2.1 rfl,
   (wait_for_prompt_typed_errors 1 "r" (fun _ => none) (fun _ => .ev 5)
      ⟨true, 0, "", "", [], "", "", none⟩ 0 0 60 FSM.Ctx.init).2.2.2.2.2.2.2.1 rfl,
   (wait_for_prompt_typed_errors 1 "r" (fun _ => none) (fun _ => .ev 6)
      ⟨true, 0, "", "", [], "", "", none⟩ 0 0 60 FSM.Ctx.init).2.2.2.2.2.2.2.2 rfl⟩

/-! ## C4: the earlier-hop-prompt transition of `wait_for_prompt` -/

/-- **C4** (the code evaluated at the failing input).  For a one-hop
connection, event `8` of `wait_for_prompt`'s event list is the earlier-hop
prompt `compiled_prompts[0]` (third conjunct).  When that prompt matches in
state `0`, the run does **not** set `last_hop` and `connected` and fail as
the claim states: `a_unexpected_prompt` reads `ctx.detected_prompts`, an
attribute `FSM.Context` does not have, so the run terminates by raising
`AttributeError` with the controller state unchanged (`connected` still
`true`, `last_hop` still `0`; first conjunct), and it does not return the
failure value `False` (second conjunct). -/
theorem unexpected_prompt_attribute_error :
    (wait_for_prompt 1 "router" (fun _ => none) 60 (fun _ => .ev 8)
        ⟨true, 0, "", "jump$ ", [some "FaKePrOmPt", some "router#"], "global", "router", none⟩
      = .raised (.attributeError "detected_prompts")
          ⟨true, 0, "", "jump$ ", [some "FaKePrOmPt", some "router#"], "global", "router", none⟩)
    ∧ (∀ w' : CtrlSt,
        wait_for_prompt 1 "router" (fun _ => none) 60 (fun _ => .ev 8)
          ⟨true, 0, "", "jump$ ", [some "FaKePrOmPt", some "router#"], "global", "router", none⟩
          ≠ .ok false w')
    ∧ FSM.eventIndex (wfpEvents 1) (.hop ⟨0, Nat.zero_lt_one⟩) = some 8 := by
  refine ⟨rfl, ?_, rfl⟩
  intro w' h
  rw [show wait_for_prompt 1 "router" (fun _ => none) 60 (fun _ => .ev 8)
        ⟨true, 0, "", "jump$ ", [some "FaKePrOmPt", some "router#"], "global", "router", none⟩
      = .raised (.attributeError "detected_prompts")
          ⟨true, 0, "", "jump$ ", [some "FaKePrOmPt", some "router#"], "global", "router", none⟩
      from rfl] at h
  exact absurd h (by simp)

/-! ## C2: `send` returns stripped output or raises exactly one typed error -/

/-- The typed errors a `send` call may raise per the error-handling design:
the `ConnectionError` family (including its subclasses),
`CommandSyntaxError`, and `CommandTimeoutError`. -/
def PyExc.isTypedSendError : PyExc → Bool
  | .connectionError _ _ => true
  | .connectionAuthenticationError _ _ => true
  | .connectionTimeoutError _ _ => true
  | .commandSyntaxError _ _ => true
  | .commandTimeoutError _ _ => true
  | _ => false

/-- **C2.**  On a connected driver, `send` either returns the captured
output `ctrl.before` with every `'\r'` removed, or raises exactly one
exception, which is always one of the typed errors (`ConnectionError`
family, `CommandSyntaxError`, `CommandTimeoutError`); no output is returned
in that case.  When the raised error is a `ConnectionError`, `send` calls
`disconnect` before propagating, so the resulting driver state is
disconnected; otherwise the driver state keeps its connection flag. -/
theorem send_strips_or_raises_typed (st : DriverSt) (r : FSM.RunResult CtrlSt)
    (hconn : st.connected = true) :
    (∃ w : CtrlSt, executeCommandOutcome st.hostname r = (w, none) ∧
       Connection.send st r = ({ st with ctrl := w }, .ok (stripCR w.before)))
    ∨ (∃ (w : CtrlSt) (e : PyExc), executeCommandOutcome st.hostname r = (w, some e) ∧
       e.isTypedSendError = true ∧
       Connection.send st r =
         ((if e.isConnectionError then Connection.disconnect { st with ctrl := w }
           else { st with ctrl := w }), .error e) ∧
       (e.isConnectionError = true → (Connection.send st r).1.connected = false)) := by
  cases r with
  | ok b w =>
    cases b with
    | true =>
      left
      exact ⟨w, rfl, by simp [Connection.send, hconn, executeCommandOutcome]⟩
    | false =>
      right
      refine ⟨w, .connectionError "Unexpected session disconnect" st.hostname, rfl, rfl, ?_, ?_⟩
      · simp [Connection.send, hconn, executeCommandOutcome, PyExc.isConnectionError]
      · intro _
        simp [Connection.send, hconn, executeCommandOutcome, PyExc.isConnectionError,
          Connection.disconnect]
  | raised e w =>
    right
    refine ⟨w, (executeCommandOutcome st.hostname (.raised e w)).2.getD .pexpectEOF, ?_, ?_, ?_, ?_⟩
    · cases e <;> rfl
    · cases e <;> simp [executeCommandOutcome, PyExc.isTypedSendError,
        PyExc.isCommandSyntaxError, PyExc.isCommandTimeoutOrTimeout, PyExc.isConnectionError]
    · cases e <;>
        simp [Connection.send, hconn, executeCommandOutcome, PyExc.isConnectionError,
          PyExc.isCommandSyntaxError, PyExc.isCommandTimeoutOrTimeout, Connection.disconnect]
    · intro hc
      cases e <;>
        simp_all [Connection.send, hconn, executeCommandOutcome, PyExc.isConnectionError,
          PyExc.isCommandSyntaxError, PyExc.isCommandTimeoutOrTimeout, Connection.disconnect]

/-- Witness for C2: a connected driver whose wait FSM succeeded with
`before = "line1\r\nline2\r"`. -/
theorem send_strips_or_raises_typed_witness :
    (∃ w : CtrlSt,
       executeCommandOutcome "r"
           (.ok true ⟨true, 0, "line1\r\nline2\r", "#", [], "global", "r", none⟩)
         = (w, none) ∧
       Connection.send ⟨true, false, "r", ⟨true, 0, "", "", [], "", "", none⟩⟩
           (.ok true ⟨true, 0, "line1\r\nline2\r", "#", [], "global", "r", none⟩)
         = ({ (⟨true, false, "r", ⟨true, 0, "", "", [], "", "", none⟩⟩ : DriverSt)
               with ctrl := w }, .ok (stripCR w.before)))
    ∨ (∃ (w : CtrlSt) (e : PyExc),
       executeCommandOutcome "r"
           (.ok true ⟨true, 0, "line1\r\nline2\r", "#", [], "global", "r", none⟩)
         = (w, some e) ∧
       e.isTypedSendError = true ∧
       Connection.send ⟨true, false, "r", ⟨true, 0, "", "", [], "", "", none⟩⟩
           (.ok true ⟨true, 0, "line1\r\nline2\r", "#", [], "global", "r", none⟩)
         = ((if e.isConnectionError then
              Connection.disconnect
                { (⟨true, false, "r", ⟨true, 0, "", "", [], "", "", none⟩⟩ : DriverSt)
                  with ctrl := w }
            else { (⟨true, false, "r", ⟨true, 0, "", "", [], "", "", none⟩⟩ : DriverSt)
                  with ctrl := w }), .error e) ∧
       (e.isConnectionError = true →
        (Connection.send ⟨true, false, "r", ⟨true, 0, "", "", [], "", "", none⟩⟩
           (.ok true ⟨true, 0, "line1\r\nline2\r", "#", [], "global", "r", none⟩)).1.connected
          = false)) :=
  send_strips_or_raises_typed
    ⟨true, false, "r", ⟨true, 0, "", "", [], "", "", none⟩⟩
    (.ok true ⟨true, 0, "line1\r\nline2\r", "#", [], "global", "r", none⟩) rfl

/-! ## C5: the SSHv1 fallback of the SSH connect FSM -/

theorem runLoop_call_cont {W : Type} (host : String)
    (tbl : Nat → Int → Option (Int × FSM.Action W × Nat))
    (chan : Nat → FSM.ExpectResult) (fuel k tmo : Nat) (w w' : W)
    (ctx ctx' : FSM.Ctx) (i : Nat) (ns : Int) (f : W → FSM.Ctx → FSM.ActOutcome W)
    (ntmo : Nat)
    (hchan : chan k = .ev i)
    (htbl : tbl i ctx.state = some (ns, .call f, ntmo))
    (hact : f w { ctx with event := i } = .ret w' ctx' true)
    (hfin : ctx'.finished = false) (hns : ns ≠ -1) :
    FSM.runLoop host tbl chan (fuel + 1) k none tmo w ctx
      = FSM.runLoop host tbl chan fuel (k + 1) none (if ntmo ≠ 0 then ntmo else tmo)
          w' { ctx' with state := ns } := by
  rw [FSM.runLoop]
  simp [FSM.acquireEvent, hchan, htbl, FSM.execAction, hact, hfin, hns]

/-- The ssh invocation up to the protocol-version flag. -/
def sshCmdPre : String :=
  "ssh -o UserKnownHostsFile=/dev/null -o StrictHostKeyChecking=no "

/-- The ssh invocation after the protocol-version flag. -/
def sshCmdPost (username : Option String) (port : Nat) (hostname : String) : String :=
  match username with
  | some u => " -p " ++ toString port ++ " " ++ u ++ "@" ++ hostname
  | none => " -p " ++ toString port ++ " " ++ hostname

/-- **C5.**  In the SSH connect FSM, events `8` and `7` are
`PROTOCOL_DIFFER` and `MODULUS_TOO_SMALL` (conjunct 1).  A connect run whose
first two events are `PROTOCOL_DIFFER` respawns the session exactly once —
appending exactly the SSHv1 command — and then raises the fatal
`ConnectionError("Protocol version differs")` (conjunct 2).  The SSHv1
command is the same invocation as the SSHv2 command with `-1` in place of
`-2` (conjunct 3).  Step-wise: `MODULUS_TOO_SMALL` in state `0` triggers
exactly one respawn with the SSHv1 command and stays in state `0`
(conjunct 4); the first `PROTOCOL_DIFFER` in state `0` triggers exactly one
respawn and moves to state `4` (conjunct 5); a `PROTOCOL_DIFFER` in state
`4` raises the fatal `ConnectionError` with no further respawn
(conjunct 6). -/
theorem ssh_sshv1_fallback_once (username : Option String) (port : Nat)
    (hostname : String) (w : SshSt) (fuel k tmo : Nat) (ctx : FSM.Ctx)
    (chan : Nat → FSM.ExpectResult) :
    (FSM.eventIndex sshEvents .protocolDiffer = some 8 ∧
     FSM.eventIndex sshEvents .modulusTooSmall = some 7)
    ∧ (SSH.connect username port hostname (fun _ => .ev 8) w
        = .raised (.connectionError "Protocol version differs" hostname)
            { w with spawned := w.spawned ++ [SSH.getCommand username port hostname 1] })
    ∧ (SSH.getCommand username port hostname 2
         = sshCmdPre ++ "-2" ++ sshCmdPost username port hostname ∧
       SSH.getCommand username port hostname 1
         = sshCmdPre ++ "-1" ++ sshCmdPost username port hostname)
    ∧ (ctx.state = 0 → ctx.finished = false → chan k = .ev 7 →
       FSM.runLoop hostname (FSM.compile sshEvents (sshTransitions username port hostname))
           chan (fuel + 1) k none tmo w ctx
         = FSM.runLoop hostname (FSM.compile sshEvents (sshTransitions username port hostname))
             chan fuel (k + 1) none tmo
             { w with spawned := w.spawned ++ [SSH.getCommand username port hostname 1] }
             { ctx with event := 7, state := 0 })
    ∧ (ctx.state = 0 → ctx.finished = false → chan k = .ev 8 →
       FSM.runLoop hostname (FSM.compile sshEvents (sshTransitions username port hostname))
           chan (fuel + 1) k none tmo w ctx
         = FSM.runLoop hostname (FSM.compile sshEvents (sshTransitions username port hostname))
             chan fuel (k + 1) none tmo
             { w with spawned := w.spawned ++ [SSH.getCommand username port hostname 1] }
             { ctx with event := 8, state := 4 })
    ∧ (ctx.state = 4 → chan k = .ev 8 →
       FSM.runLoop hostname (FSM.compile sshEvents (sshTransitions username port hostname))
           chan (fuel + 1) k none tmo w ctx
         = .raised (.connectionError "Protocol version differs" hostname) w) := by
  refine ⟨⟨rfl, rfl⟩, rfl, ⟨?_, ?_⟩, ?_, ?_, ?_⟩
  · cases username <;> rfl
  · cases username <;> rfl
  · intro hst hfin hchan
    have h := runLoop_call_cont hostname
      (FSM.compile sshEvents (sshTransitions username port hostname)) chan fuel k tmo
      w { w with spawned := w.spawned ++ [SSH.getCommand username port hostname 1] }
      ctx { ctx with event := 7 } 7 0 (SSH.fallbackToSshv1 username port hostname) 0
      hchan (by rw [hst]; rfl) rfl (by simpa using hfin) (by decide)
    simpa using h
  · intro hst hfin hchan
    have h := runLoop_call_cont hostname
      (FSM.compile sshEvents (sshTransitions username port hostname)) chan fuel k tmo
      w { w with spawned := w.spawned ++ [SSH.getCommand username port hostname 1] }
      ctx { ctx with event := 8 } 8 4 (SSH.fallbackToSshv1 username port hostname) 0
      hchan (by rw [hst]; rfl) rfl (by simpa using hfin) (by decide)
    simpa using h
  · intro hst hchan
    exact runLoop_raise hostname _ chan fuel k tmo w ctx 8 (-1) _ 0 hchan
      (by rw [hst]; rfl) (by simp)

/-- Witness for C5: username `u`, port `22`, host `h`, a fresh session
state, and channels delivering the events in question. -/
theorem ssh_sshv1_fallback_once_witness :
    (SSH.connect (some "u") 22 "h" (fun _ => .ev 8) ⟨[], none, "", ""⟩
      = .raised (.connectionError "Protocol version differs" "h")
          ⟨[SSH.getCommand (some "u") 22 "h" 1], none, "", ""⟩)
    ∧ (FSM.runLoop "h" (FSM.compile sshEvents (sshTransitions (some "u") 22 "h"))
        (fun _ => .ev 7) (3 + 1) 0 none 30 ⟨[], none, "", ""⟩ FSM.Ctx.init
      = FSM.runLoop "h" (FSM.compile sshEvents (sshTransitions (some "u") 22 "h"))
          (fun _ => .ev 7) 3 1 none 30 ⟨[SSH.getCommand (some "u") 22 "h" 1], none, "", ""⟩
          { FSM.Ctx.init with event := 7, state := 0 })
    ∧ (FSM.runLoop "h" (FSM.compile sshEvents (sshTransitions (some "u") 22 "h"))
        (fun _ => .ev 8) (3 + 1) 0 none 30 ⟨[], none, "", ""⟩
        ⟨4, false, "", 0⟩
      = .raised (.connectionError "Protocol version differs" "h") ⟨[], none, "", ""⟩) :=
  ⟨(ssh_sshv1_fallback_once (some "u") 22 "h" ⟨[], none, "", ""⟩ 3 0 30 FSM.Ctx.init
      (fun _ => .ev 8)).2.1,
   (ssh_sshv1_fallback_once (some "u") 22 "h" ⟨[], none, "", ""⟩ 3 0 30 FSM.Ctx.init
      (fun _ => .ev 7)).2.2.2.1 rfl rfl rfl,
   (ssh_sshv1_fallback_once (some "u") 22 "h" ⟨[], none, "", ""⟩ 3 0 30 ⟨4, false, "", 0⟩
      (fun _ => .ev 8)).2.2.2.2.2 rfl rfl⟩

/-! ## C6: the os_type → driver-name map is total; discovery's os_type range -/

theorem searchOsToken_mem (cs : List Char) (t : String)
    (h : searchOsToken cs = some t) : t = "XR" ∨ t = "XE" ∨ t = "NX-OS" := by
  induction cs with
  | nil => simp [searchOsToken] at h
  | cons c rest ih =>
    rw [searchOsToken] at h
    split_ifs at h with h1 h2 h3
    · exact Or.inl (Option.some_injective _ h).symm
    · exact Or.inr (Or.inl (Option.some_injective _ h).symm)
    · exact Or.inr (Or.inr (Option.some_injective _ h).symm)
    · exact ih h

/-- **C6.**  `_get_driver_name` is a total function with exactly the stated
values: `XR ↦ XR`, `eXR ↦ XR64`, `IOS ↦ IOS`, `XE ↦ IOS`, `NX-OS ↦ NX-OS`,
`Calvados ↦ Calvados` (conjunct 1), and every other value of `os_type` —
including `None` — maps to `generic` (conjunct 2).  After
`_update_device_info` runs on any probe output, `os_type` is one of the six
listed values (conjunct 3) and the driver name selected by `discovery`
equals the map applied to that `os_type` (conjunct 4). -/
theorem driver_name_map_total (osType : Option String) (show_version : String) :
    (getDriverName (some "XR") = "XR" ∧ getDriverName (some "eXR") = "XR64" ∧
     getDriverName (some "IOS") = "IOS" ∧ getDriverName (some "XE") = "IOS" ∧
     getDriverName (some "NX-OS") = "NX-OS" ∧
     getDriverName (some "Calvados") = "Calvados" ∧
     getDriverName none = "generic")
    ∧ (osType ∉ ([some "XR", some "eXR", some "IOS", some "XE", some "NX-OS",
         some "Calvados"] : List (Option String)) →
       getDriverName osType = "generic")
    ∧ updateOsType show_version ∈ ["IOS", "XE", "XR", "eXR", "NX-OS", "Calvados"]
    ∧ discoveryDriverName show_version
        = getDriverName (some (updateOsType show_version)) := by
  refine ⟨by decide, ?_, ?_, rfl⟩
  · intro h
    simp only [List.mem_cons, List.not_mem_nil, or_false, not_or] at h
    obtain ⟨h1, h2, h3, h4, h5, h6⟩ := h
    simp [getDriverName, h1, h2, h3, h4, h5, h6]
  · unfold updateOsType
    cases hs : searchOsToken show_version.data with
    | none =>
      rw [if_neg (by decide : ¬("IOS" : String) = "XR")]
      decide
    | some t =>
      rcases searchOsToken_mem _ t hs with rfl | rfl | rfl
      · rw [if_pos rfl]
        split_ifs <;> decide
      · rw [if_neg (by decide : ¬("XE" : String) = "XR")]
        decide
      · rw [if_neg (by decide : ¬("NX-OS" : String) = "XR")]
        decide

/-- Witness for C6: `JUNOS` is not among the six known os types, so the
driver-name map sends it to `generic`; the other conjuncts instantiated at a
concrete IOS XR probe output. -/
theorem driver_name_map_total_witness :
    getDriverName (some "JUNOS") = "generic" ∧
    updateOsType "Cisco IOS XR Software, Version 5.3.1"
      ∈ ["IOS", "XE", "XR", "eXR", "NX-OS", "Calvados"] :=
  ⟨(driver_name_map_total (some "JUNOS") "").2.1 (by decide),
   (driver_name_map_total (some "JUNOS")
      "Cisco IOS XR Software, Version 5.3.1").2.2.1⟩

/-! ## C7: the device description record round trip -/

/-- **C7.**  Writing a discovered connection's `device_description_record`
and reading it back into a fresh connection (the setter applied to the
getter's record) restores identical hostname, target prompt, family,
platform (as observed through the `platform` property), os_type, os_version,
is_console, last driver index, UDI and detected-prompt list: the record
setter is a left inverse of the getter on these fields. -/
theorem device_description_record_round_trip (st fresh : FacadeSt) :
    (setDeviceDescriptionRecord fresh (deviceDescriptionRecord st)).hostname = st.hostname
    ∧ (setDeviceDescriptionRecord fresh (deviceDescriptionRecord st)).prompt = st.prompt
    ∧ (setDeviceDescriptionRecord fresh (deviceDescriptionRecord st)).family = st.family
    ∧ platformProp (setDeviceDescriptionRecord fresh (deviceDescriptionRecord st))
        = platformProp st
    ∧ (setDeviceDescriptionRecord fresh (deviceDescriptionRecord st)).osType = st.osType
    ∧ (setDeviceDescriptionRecord fresh (deviceDescriptionRecord st)).osVersion = st.osVersion
    ∧ (setDeviceDescriptionRecord fresh (deviceDescriptionRecord st)).isConsole = st.isConsole
    ∧ (setDeviceDescriptionRecord fresh (deviceDescriptionRecord st)).lastDriverIndex
        = st.lastDriverIndex
    ∧ (setDeviceDescriptionRecord fresh (deviceDescriptionRecord st)).udi = st.udi
    ∧ (setDeviceDescriptionRecord fresh (deviceDescriptionRecord st)).detectedPrompts
        = st.detectedPrompts := by
  refine ⟨rfl, rfl, rfl, ?_, rfl, rfl, rfl, rfl, rfl, rfl⟩
  unfold platformProp setDeviceDescriptionRecord deviceDescriptionRecord
  cases h : platSearch st.udi.pid.data <;> simp [platformProp, h]

/-! ## C9: the controller-construction TypeError in `connect` -/

/-- **C9.**  On any platform driver whose `connected` flag is `False`,
`connect` evaluates `self.ctrl_class(self.hosts, self.account_manager,
logfile=logfile)` against `Controller.__init__(self, platform, hostname,
hosts, ...)`: the two positional arguments bind `platform` and `hostname`
and the required `hosts` parameter stays unfilled, so the call raises
`TypeError` before any network I/O.  Consequently the call never returns
`True` (or any boolean) and never raises the documented
`ConnectionError`. -/
theorem connect_raises_type_error (st : DriverSt) (ctrlConnect : Bool)
    (h : st.connected = false) :
    Connection.connect st ctrlConnect
      = .error (.typeError "missing required argument: hosts")
    ∧ (∀ b, Connection.connect st ctrlConnect ≠ .ok b)
    ∧ (∀ m hst, Connection.connect st ctrlConnect ≠ .error (.connectionError m hst)) := by
  have h1 : Connection.connect st ctrlConnect
      = .error (.typeError "missing required argument: hosts") := by
    unfold Connection.connect
    rw [if_neg (by simp [h])]
    rfl
  refine ⟨h1, ?_, ?_⟩
  · intro b hb
    rw [h1] at hb
    exact absurd hb (by simp)
  · intro m hst hb
    rw [h1] at hb
    simp only [Except.error.injEq] at hb
    exact absurd hb (by simp)

/-- Witness for C9: a freshly constructed generic driver
(`connected = False`). -/
theorem connect_raises_type_error_witness :
    Connection.connect ⟨false, false, "r", ⟨false, 0, "", "", [], "", "", none⟩⟩ true
      = .error (.typeError "missing required argument: hosts") :=
  (connect_raises_type_error
    ⟨false, false, "r", ⟨false, 0, "", "", [], "", "", none⟩⟩ true rfl).1

/-! ## C10: the `max_transitions` keyword TypeError in `run_fsm` -/

/-- **C10.**  Every `run_fsm(name, command, events, transitions, timeout,
max_transitions)` call sends the command and then evaluates
`FSM(name, self.ctrl, events, transitions, timeout=timeout,
max_transitions=max_transitions)` against `FSM.__init__(self, name, ctrl,
events, transitions, init_pattern=None, timeout=300)`: `max_transitions` is
not a parameter of `FSM.__init__`, so the call raises `TypeError` after the
command was sent, and `run_fsm` never returns a boolean. -/
theorem run_fsm_raises_type_error (st : DriverSt) (command : String)
    (fsmResult : Bool) :
    Connection.run_fsm st command fsmResult
      = ([command], .error (.typeError "got an unexpected keyword argument max_transitions"))
    ∧ (∀ b, (Connection.run_fsm st command fsmResult).2 ≠ .ok b) := by
  refine ⟨rfl, ?_⟩
  intro b hb
  rw [show (Connection.run_fsm st command fsmResult).2
      = .error (.typeError "got an unexpected keyword argument max_transitions") from rfl] at hb
  exact absurd hb (by simp)

/-! ## C8 part 1: `levenshtein_distance` computes the minimum edit count

First, elementary facts about the reference recursion `lev`. -/

section Levenshtein

variable {α : Type} [DecidableEq α]

theorem lev_nil_left (ys : List α) : lev [] ys = ys.length := by
  cases ys <;> simp [lev]

theorem lev_nil_right (xs : List α) : lev xs [] = xs.length := by
  cases xs <;> simp [lev]

theorem lev_cons_cons (x y : α) (xs ys : List α) :
    lev (x :: xs) (y :: ys)
      = min (lev xs (y :: ys) + 1)
          (min (lev (x :: xs) ys + 1) (lev xs ys + (if x = y then 0 else 1))) := by
  simp [lev]

theorem lev_self (xs : List α) : lev xs xs = 0 := by
  induction xs with
  | nil => simp [lev]
  | cons x xs ih => rw [lev_cons_cons, ih]; simp

/-- Deleting the head of the left list raises the distance by at most 1. -/
theorem lev_cons_left_le (x : α) (u v : List α) : lev (x :: u) v ≤ lev u v + 1 := by
  cases v with
  | nil => simp [lev_nil_right]
  | cons z v' => rw [lev_cons_cons]; omega

/-- Inserting a head into the right list raises the distance by at most 1. -/
theorem lev_cons_right_le (z : α) (u v : List α) : lev u (z :: v) ≤ lev u v + 1 := by
  cases u with
  | nil => simp [lev_nil_left]
  | cons x u' => rw [lev_cons_cons]; omega

/-- Removing a head from the left list raises the distance by at most 1. -/
theorem lev_del_head_le (x : α) (u : List α) : ∀ v : List α, lev u v ≤ lev (x :: u) v + 1 := by
  intro v
  induction v with
  | nil => simp [lev_nil_right]; omega
  | cons z v' ih =>
    have h1 := lev_cons_right_le z u v'
    rw [lev_cons_cons]
    omega

/-- Substituting the head of the left list raises the distance by at most 1. -/
theorem lev_sub_head_le (x y : α) (u : List α) :
    ∀ v : List α, lev (y :: u) v ≤ lev (x :: u) v + 1 := by
  intro v
  induction v with
  | nil => simp [lev_nil_right]
  | cons z v' ih =>
    rw [lev_cons_cons, lev_cons_cons]
    have hc : (if y = z then 0 else 1) ≤ 1 := by split <;> omega
    omega

/-- Inserting an element anywhere in the left list raises the distance by at
most 1. -/
theorem lev_ins_le (y : α) (pre : List α) :
    ∀ (post b : List α), lev (pre ++ y :: post) b ≤ lev (pre ++ post) b + 1 := by
  induction pre with
  | nil =>
    intro post b
    simpa using lev_cons_left_le y post b
  | cons p pre' ih =>
    intro post b
    induction b with
    | nil => simp [lev_nil_right]; omega
    | cons z b' ihb =>
      rw [List.cons_append, List.cons_append, lev_cons_cons, lev_cons_cons]
      have h1 := ih post (z :: b')
      have h3 := ih post b'
      rw [List.cons_append, List.cons_append] at ihb
      omega

/-- Deleting an element anywhere from the left list raises the distance by
at most 1. -/
theorem lev_del_le (x : α) (pre : List α) :
    ∀ (post b : List α), lev (pre ++ post) b ≤ lev (pre ++ x :: post) b + 1 := by
  induction pre with
  | nil =>
    intro post b
    simpa using lev_del_head_le x post b
  | cons p pre' ih =>
    intro post b
    induction b with
    | nil => simp [lev_nil_right]; omega
    | cons z b' ihb =>
      rw [List.cons_append, List.cons_append, lev_cons_cons, lev_cons_cons]
      have h1 := ih post (z :: b')
      have h3 := ih post b'
      rw [List.cons_append, List.cons_append] at ihb
      omega

/-- Substituting an element anywhere in the left list raises the distance by
at most 1. -/
theorem lev_sub_le (x y : α) (pre : List α) :
    ∀ (post b : List α), lev (pre ++ y :: post) b ≤ lev (pre ++ x :: post) b + 1 := by
  induction pre with
  | nil =>
    intro post b
    simpa using lev_sub_head_le x y post b
  | cons p pre' ih =>
    intro post b
    induction b with
    | nil => simp [lev_nil_right]
    | cons z b' ihb =>
      rw [List.cons_append, List.cons_append, lev_cons_cons, lev_cons_cons]
      have h1 := ih post (z :: b')
      have h3 := ih post b'
      rw [List.cons_append, List.cons_append] at ihb
      omega

/-- One edit never changes `lev` to the first argument by more than 1. -/
theorem lev_le_of_step {a c : List α} (h : Step a c) (b : List α) :
    lev a b ≤ lev c b + 1 := by
  cases h with
  | ins pre post y => exact lev_del_le y pre post b
  | del pre post x => exact lev_ins_le x pre post b
  | sub pre post x y => exact lev_sub_le y x pre post b

/-- Lower bound: `lev` is at most the length of any edit chain. -/
theorem chain_lev_le {a b : List α} {n : Nat} (h : Chain a b n) : lev a b ≤ n := by
  induction h with
  | refl xs => exact le_of_eq (lev_self xs)
  | step hs _ ih => exact le_trans (lev_le_of_step hs _) (by omega)

theorem aligns_nil_right (u : List α) : Aligns u [] u.length := by
  induction u with
  | nil => exact .nil
  | cons x xs ih => exact .del x ih

theorem aligns_nil_left (v : List α) : Aligns [] v v.length := by
  induction v with
  | nil => exact .nil
  | cons y ys ih => exact .ins y ih

/-- Achievability: there is an alignment of cost exactly `lev a b`. -/
theorem aligns_lev (a : List α) : ∀ b : List α, Aligns a b (lev a b) := by
  induction a with
  | nil =>
    intro b
    rw [lev_nil_left]
    exact aligns_nil_left b
  | cons x xs ihx =>
    intro b
    induction b with
    | nil =>
      rw [lev_nil_right]
      exact aligns_nil_right (x :: xs)
    | cons y ys ihy =>
      rw [lev_cons_cons]
      rcases min_choice (lev xs (y :: ys) + 1)
          (min (lev (x :: xs) ys + 1) (lev xs ys + if x = y then 0 else 1)) with h | h
      · rw [h]
        exact .del x (ihx (y :: ys))
      · rw [h]
        rcases min_choice (lev (x :: xs) ys + 1) (lev xs ys + if x = y then 0 else 1)
            with h2 | h2
        · rw [h2]
          exact .ins y ihy
        · rw [h2]
          exact .sub x y (ihx ys)

theorem step_cons (a : α) {u v : List α} (h : Step u v) : Step (a :: u) (a :: v) := by
  cases h with
  | ins pre post y => simpa using Step.ins (a :: pre) post y
  | del pre post x => simpa using Step.del (a :: pre) post x
  | sub pre post x y => simpa using Step.sub (a :: pre) post x y

theorem chain_cons (a : α) {u v : List α} {n : Nat} (h : Chain u v n) :
    Chain (a :: u) (a :: v) n := by
  induction h with
  | refl xs => exact .refl (a :: xs)
  | step hs _ ih => exact .step (step_cons a hs) ih

theorem chain_snoc {u v w : List α} {n : Nat} (h : Chain u v n) (hs : Step v w) :
    Chain u w (n + 1) := by
  induction h with
  | refl xs => exact .step hs (.refl _)
  | step h1 _ ih => exact .step h1 (ih hs)

/-- Every alignment yields an edit chain of the same cost. -/
theorem aligns_to_chain {a b : List α} {n : Nat} (h : Aligns a b n) : Chain a b n := by
  induction h with
  | nil => exact .refl []
  | @ins xs ys m y _ ih =>
    exact chain_snoc ih (by simpa using Step.ins ([] : List α) ys y)
  | @del xs ys m x _ ih =>
    exact .step (by simpa using Step.del ([] : List α) xs x) ih
  | @sub xs ys m x y _ ih =>
    by_cases hxy : x = y
    · subst hxy
      simpa using chain_cons x ih
    · simp only [if_neg hxy]
      exact chain_snoc (chain_cons x ih) (by simpa using Step.sub ([] : List α) ys x y)

/-- The central characterization: `lev a b` is the least number of
single-element insertions, deletions and substitutions transforming `a`
into `b`. -/
theorem lev_isLeast (a b : List α) : IsLeast {n | Chain a b n} (lev a b) :=
  ⟨aligns_to_chain (aligns_lev a b), fun _ hn => chain_lev_le hn⟩

theorem step_symm {u v : List α} (h : Step u v) : Step v u := by
  cases h with
  | ins pre post y => exact .del pre post y
  | del pre post x => exact .ins pre post x
  | sub pre post x y => exact .sub pre post y x

theorem chain_symm {a b : List α} {n : Nat} (h : Chain a b n) : Chain b a n := by
  induction h with
  | refl xs => exact .refl xs
  | step h1 _ ih => exact chain_snoc ih (step_symm h1)

theorem lev_comm (a b : List α) : lev a b = lev b a :=
  (lev_isLeast a b).unique
    ⟨chain_symm (lev_isLeast b a).1, fun _ hn => (lev_isLeast b a).2 (chain_symm hn)⟩

theorem step_reverse {u v : List α} (h : Step u v) : Step u.reverse v.reverse := by
  cases h with
  | ins pre post y =>
    simpa [List.reverse_append] using Step.ins post.reverse pre.reverse y
  | del pre post x =>
    simpa [List.reverse_append] using Step.del post.reverse pre.reverse x
  | sub pre post x y =>
    simpa [List.reverse_append] using Step.sub post.reverse pre.reverse x y

theorem chain_reverse {a b : List α} {n : Nat} (h : Chain a b n) :
    Chain a.reverse b.reverse n := by
  induction h with
  | refl xs => exact .refl xs.reverse
  | step h1 _ ih => exact .step (step_reverse h1) ih

theorem lev_reverse (a b : List α) : lev a.reverse b.reverse = lev a b :=
  (lev_isLeast a.reverse b.reverse).unique
    ⟨chain_reverse (lev_isLeast a b).1,
     fun n hn => (lev_isLeast a b).2 (by simpa using chain_reverse hn)⟩

theorem rowOf_cons (raPre : List α) (x : α) (rest rb : List α) :
    rowOf raPre (x :: rest) rb = lev raPre rb :: rowOf (x :: raPre) rest rb := rfl

theorem rowOf_nil (raPre rb : List α) : rowOf raPre [] rb = [lev raPre rb] := rfl

/-- The initial row `current = range(n+1)` is the row of the empty
`b`-prefix. -/
theorem rowOf_nil_b (aSuf : List α) : ∀ raPre : List α,
    rowOf raPre aSuf [] = (List.range (aSuf.length + 1)).map (· + raPre.length) := by
  induction aSuf with
  | nil =>
    intro raPre
    simp [rowOf_nil, lev_nil_right, List.range_succ]
  | cons x rest ih =>
    intro raPre
    have h2 : List.range (rest.length + 1 + 1)
        = 0 :: (List.range (rest.length + 1)).map Nat.succ := List.range_succ_eq_map _
    rw [rowOf_cons, ih (x :: raPre), lev_nil_right]
    simp only [List.length_cons]
    rw [h2, List.map_cons, List.map_map]
    congr 1
    · simp
    · apply List.map_congr_left
      intro i _
      simp only [Function.comp_apply, List.length_cons]
      omega

/-- The inner loop computes the next row: if `prev` is the row for the
`b`-prefix `rbOld` and `last` is the new row's entry at `raPre`, `nextRow`
produces the remaining entries of the row for `bi :: rbOld`. -/
theorem nextRow_spec (bi : α) :
    ∀ (aSuf raPre rbOld : List α),
      nextRow bi aSuf (rowOf raPre aSuf rbOld) (lev raPre (bi :: rbOld))
        = (rowOf raPre aSuf (bi :: rbOld)).tail := by
  intro aSuf
  induction aSuf with
  | nil => intro raPre rbOld; rfl
  | cons aj arest ih =>
    intro raPre rbOld
    have hv : min (lev (aj :: raPre) rbOld + 1)
        (min (lev raPre (bi :: rbOld) + 1)
          (lev raPre rbOld + (if aj = bi then 0 else 1)))
        = lev (aj :: raPre) (bi :: rbOld) := by
      rw [lev_cons_cons]
      omega
    rw [rowOf_cons, rowOf_cons, List.tail_cons]
    cases arest with
    | nil =>
      simp only [rowOf_nil, nextRow]
      rw [hv]
    | cons a2 arest2 =>
      rw [rowOf_cons]
      simp only [nextRow]
      rw [hv, rowOf_cons (aj :: raPre) a2 arest2 (bi :: rbOld)]
      congr 1
      simpa [rowOf_cons] using ih (aj :: raPre) rbOld

/-- The outer loop: starting from the row of `rb`, consuming `brest`
produces the row of `brest.reverse ++ rb`. -/
theorem dpLoop_spec (a : List α) :
    ∀ (brest rb : List α),
      dpLoop a brest (rowOf [] a rb) (rb.length + 1)
        = rowOf [] a (brest.reverse ++ rb) := by
  intro brest
  induction brest with
  | nil => intro rb; simp [dpLoop]
  | cons bi brest' ih =>
    intro rb
    have hhead : lev ([] : List α) (bi :: rb) = rb.length + 1 := by
      rw [lev_nil_left]; rfl
    have hrow : (rb.length + 1) :: nextRow bi a (rowOf [] a rb) (rb.length + 1)
        = rowOf [] a (bi :: rb) := by
      rw [← hhead, nextRow_spec bi a [] rb]
      cases a with
      | nil => rfl
      | cons x rest => rw [rowOf_cons, List.tail_cons]
    calc dpLoop a (bi :: brest') (rowOf [] a rb) (rb.length + 1)
        = dpLoop a brest' ((rb.length + 1) :: nextRow bi a (rowOf [] a rb) (rb.length + 1))
            (rb.length + 2) := rfl
      _ = dpLoop a brest' (rowOf [] a (bi :: rb)) ((bi :: rb).length + 1) := by
            rw [hrow]; rfl
      _ = rowOf [] a (brest'.reverse ++ (bi :: rb)) := ih (bi :: rb)
      _ = rowOf [] a ((bi :: brest').reverse ++ rb) := by
            simp [List.reverse_cons, List.append_assoc]

/-- The last entry of a row is `lev` of the whole (reversed) `a` prefix. -/
theorem rowOf_getLast? (aSuf : List α) : ∀ raPre rb : List α,
    (rowOf raPre aSuf rb).getLast? = some (lev (aSuf.reverse ++ raPre) rb) := by
  induction aSuf with
  | nil => intro raPre rb; simp [rowOf_nil]
  | cons x rest ih =>
    intro raPre rb
    rw [rowOf_cons]
    cases hrest : rest with
    | nil =>
      simp only [rowOf_nil, List.getLast?]
      simp
    | cons x2 rest2 =>
      rw [rowOf_cons, List.getLast?_cons_cons, ← rowOf_cons]
      rw [← hrest, ih (x :: raPre) rb]
      congr 1
      simp

theorem rowOf_getLastD (aSuf raPre rb : List α) :
    (rowOf raPre aSuf rb).getLastD 0 = lev (aSuf.reverse ++ raPre) rb := by
  rw [List.getLastD_eq_getLast?, rowOf_getLast?]
  rfl

/-- The DP of `Protocol.levenshtein_distance` computes `lev`. -/
theorem levenshtein_distance_eq_lev (a b : List α) :
    levenshtein_distance a b = lev a b := by
  have hrange : ∀ u : List α, List.range (u.length + 1) = rowOf [] u [] := by
    intro u
    rw [rowOf_nil_b u []]
    simp
  unfold levenshtein_distance
  by_cases h : b.length < a.length
  · rw [if_pos h, hrange b,
      show dpLoop b a (rowOf [] b []) 1 = dpLoop b a (rowOf [] b []) (([] : List α).length + 1)
        from rfl,
      dpLoop_spec b a [], List.append_nil, rowOf_getLastD, List.append_nil, lev_reverse,
      lev_comm]
  · rw [if_neg h, hrange a,
      show dpLoop a b (rowOf [] a []) 1 = dpLoop a b (rowOf [] a []) (([] : List α).length + 1)
        from rfl,
      dpLoop_spec a b [], List.append_nil, rowOf_getLastD, List.append_nil, lev_reverse]

end Levenshtein

/-! ## C8 part 2: the acceptance condition of `detect_prompt` -/

theorem detectGo_accept (reads : Nat → ℚ → String × String) :
    ∀ (fuel attempt : Nat) (m : ℚ) (k : Nat) (p : String),
      detectGo reads attempt m fuel = some (k, p) →
      attempt + 1 ≤ k ∧ k ≤ attempt + fuel ∧
      (reads k (m * (6 / 5 : ℚ) ^ (k - attempt - 1))).1.length ≠ 0 ∧
      ((levenshteinStr (reads k (m * (6 / 5 : ℚ) ^ (k - attempt - 1))).1
          (reads k (m * (6 / 5 : ℚ) ^ (k - attempt - 1))).2 : ℚ)
        / ((reads k (m * (6 / 5 : ℚ) ^ (k - attempt - 1))).1.length : ℚ) < 3 / 10) ∧
      p = lastLineKeep (reads k (m * (6 / 5 : ℚ) ^ (k - attempt - 1))).2 := by
  intro fuel
  induction fuel with
  | zero => intro attempt m k p h; simp [detectGo] at h
  | succ fuel ih =>
    intro attempt m k p h
    rw [detectGo] at h
    by_cases h0 : (reads (attempt + 1) m).1.length = 0
    · rw [if_pos h0] at h
      obtain ⟨h1, h2, h3, h4, h5⟩ := ih (attempt + 1) (m * (6 / 5)) k p h
      have hm : m * (6 / 5 : ℚ) * (6 / 5 : ℚ) ^ (k - (attempt + 1) - 1)
          = m * (6 / 5 : ℚ) ^ (k - attempt - 1) := by
        have he : k - attempt - 1 = (k - (attempt + 1) - 1) + 1 := by omega
        rw [he, pow_succ]
        ring
      rw [hm] at h3 h4 h5
      exact ⟨by omega, by omega, h3, h4, h5⟩
    · rw [if_neg h0] at h
      by_cases hacc : ((levenshteinStr (reads (attempt + 1) m).1
            (reads (attempt + 1) m).2 : ℚ)
          / ((reads (attempt + 1) m).1.length : ℚ) < 3 / 10)
      · rw [if_pos hacc] at h
        obtain ⟨rfl, rfl⟩ : k = attempt + 1 ∧ p = lastLineKeep (reads (attempt + 1) m).2 := by
          cases h
          exact ⟨rfl, rfl⟩
        have hm : m * (6 / 5 : ℚ) ^ (attempt + 1 - attempt - 1) = m := by
          have he : attempt + 1 - attempt - 1 = 0 := by omega
          rw [he, pow_zero, mul_one]
        rw [hm]
        exact ⟨le_refl _, by omega, h0, hacc, rfl⟩
      · rw [if_neg hacc] at h
        obtain ⟨h1, h2, h3, h4, h5⟩ := ih (attempt + 1) (m * (6 / 5)) k p h
        have hm : m * (6 / 5 : ℚ) * (6 / 5 : ℚ) ^ (k - (attempt + 1) - 1)
            = m * (6 / 5 : ℚ) ^ (k - attempt - 1) := by
          have he : k - attempt - 1 = (k - (attempt + 1) - 1) + 1 := by omega
          rw [he, pow_succ]
          ring
        rw [hm] at h3 h4 h5
        exact ⟨by omega, by omega, h3, h4, h5⟩

theorem levenshteinStr_nil_right (a : String) : levenshteinStr a "" = a.length := by
  show levenshtein_distance a.data [] = a.length
  rw [levenshtein_distance_eq_lev, lev_nil_right]
  rfl

/-- **C8.**  `levenshtein_distance(a, b)` returns exactly the Levenshtein
edit distance — the least number of single-character insertions, deletions
and substitutions transforming `a` into `b` (the `IsLeast` conjunct) — and
`detect_prompt` accepts a prompt only when the distance between the two read
tails divided by `len(a)` is below `0.3` with both tails non-empty; it
retries at most `10` times, attempt `k` being performed with the
read-timeout multiplier `4 * 1.2^(k-1)` (the multiplier is multiplied by
`1.2` on each attempt). -/
theorem levenshtein_min_and_detect_accept (sa sb : String)
    (reads : Nat → ℚ → String × String) (k : Nat) (p : String)
    (hacc : detect_prompt reads = some (k, p)) :
    IsLeast {n | Chain sa.data sb.data n} (levenshteinStr sa sb)
    ∧ 1 ≤ k ∧ k ≤ 10
    ∧ (reads k (4 * (6 / 5 : ℚ) ^ (k - 1))).1 ≠ ""
    ∧ (reads k (4 * (6 / 5 : ℚ) ^ (k - 1))).2 ≠ ""
    ∧ ((levenshteinStr (reads k (4 * (6 / 5 : ℚ) ^ (k - 1))).1
          (reads k (4 * (6 / 5 : ℚ) ^ (k - 1))).2 : ℚ)
        / ((reads k (4 * (6 / 5 : ℚ) ^ (k - 1))).1.length : ℚ) < 3 / 10)
    ∧ p = lastLineKeep (reads k (4 * (6 / 5 : ℚ) ^ (k - 1))).2 := by
  have hmain : IsLeast {n | Chain sa.data sb.data n} (levenshteinStr sa sb) := by
    show IsLeast _ (levenshtein_distance sa.data sb.data)
    rw [levenshtein_distance_eq_lev]
    exact lev_isLeast sa.data sb.data
  obtain ⟨h1, h2, h3, h4, h5⟩ := detectGo_accept reads 10 0 4 k p hacc
  rw [show k - 0 - 1 = k - 1 from by omega] at h3 h4 h5
  have hane : (reads k (4 * (6 / 5 : ℚ) ^ (k - 1))).1 ≠ "" := by
    intro he
    rw [he] at h3
    exact h3 rfl
  have hbne : (reads k (4 * (6 / 5 : ℚ) ^ (k - 1))).2 ≠ "" := by
    intro he
    rw [he, levenshteinStr_nil_right] at h4
    rw [div_self (by exact_mod_cast h3)] at h4
    norm_num at h4
  exact ⟨hmain, by omega, by omega, hane, hbne, h4, h5⟩

/-- A run of the detect loop that accepts on its first attempt. -/
theorem detectGo_accept_first (reads : Nat → ℚ → String × String) (attempt : Nat)
    (m : ℚ) (fuel : Nat)
    (h0 : ¬((reads (attempt + 1) m).1.length = 0))
    (h1 : ((levenshteinStr (reads (attempt + 1) m).1 (reads (attempt + 1) m).2 : ℚ)
        / ((reads (attempt + 1) m).1.length : ℚ) < 3 / 10)) :
    detectGo reads attempt m (fuel + 1)
      = some (attempt + 1, lastLineKeep (reads (attempt + 1) m).2) := by
  rw [detectGo]
  show (if (reads (attempt + 1) m).1.length = 0 then
          detectGo reads (attempt + 1) (m * (6 / 5)) fuel
        else if ((levenshteinStr (reads (attempt + 1) m).1 (reads (attempt + 1) m).2 : ℚ)
            / ((reads (attempt + 1) m).1.length : ℚ) < 3 / 10) then
          some (attempt + 1, lastLineKeep (reads (attempt + 1) m).2)
        else detectGo reads (attempt + 1) (m * (6 / 5)) fuel) = _
  rw [if_neg h0, if_pos h1]

/-- Witness for C8: concrete strings, and a read stream whose first attempt
reads the identical tails `"prompt>"`, accepted at attempt `1`. -/
theorem levenshtein_min_and_detect_accept_witness :
    IsLeast {n | Chain "kitten".data "sitting".data n} (levenshteinStr "kitten" "sitting")
    ∧ 1 ≤ 1 ∧ 1 ≤ 10
    ∧ ((fun (_ : Nat) (_ : ℚ) => ("prompt>", "prompt>")) 1 (4 * (6 / 5 : ℚ) ^ (1 - 1))).1 ≠ ""
    ∧ ((fun (_ : Nat) (_ : ℚ) => ("prompt>", "prompt>")) 1 (4 * (6 / 5 : ℚ) ^ (1 - 1))).2 ≠ ""
    ∧ ((levenshteinStr
          ((fun (_ : Nat) (_ : ℚ) => ("prompt>", "prompt>")) 1 (4 * (6 / 5 : ℚ) ^ (1 - 1))).1
          ((fun (_ : Nat) (_ : ℚ) => ("prompt>", "prompt>")) 1 (4 * (6 / 5 : ℚ) ^ (1 - 1))).2 : ℚ)
        / (((fun (_ : Nat) (_ : ℚ) => ("prompt>", "prompt>")) 1
              (4 * (6 / 5 : ℚ) ^ (1 - 1))).1.length : ℚ) < 3 / 10)
    ∧ "prompt>" = lastLineKeep
        ((fun (_ : Nat) (_ : ℚ) => ("prompt>", "prompt>")) 1 (4 * (6 / 5 : ℚ) ^ (1 - 1))).2 :=
  levenshtein_min_and_detect_accept "kitten" "sitting"
    (fun _ _ => ("prompt>", "prompt>")) 1 "prompt>"
    (by
      have hld : levenshteinStr "prompt>" "prompt>" = 0 := by
        show levenshtein_distance ("prompt>" : String).data ("prompt>" : String).data = 0
        rw [levenshtein_distance_eq_lev]
        exact lev_self _
      have h := detectGo_accept_first (fun _ _ => (("prompt>" : String), ("prompt>" : String)))
        0 4 9 (by decide)
        (by
          show ((levenshteinStr "prompt>" "prompt>" : ℚ)
              / ((("prompt>" : String).length : Nat) : ℚ) < 3 / 10)
          rw [hld, show ("prompt>" : String).length = 7 from rfl]
          norm_num)
      exact h)

end Condoor
